import Mathlib

/-!
# art-sso: the e-mail credential lifecycle of `internal/service/auth/auth_email.go`

A shallow embedding of `AuthServiceImpl` (sign-up, e-mail code verification,
sign-in, token issuance, verification-code generation).

The service is pure orchestration over collaborators it holds as interfaces:
the user repository, the mail service, the token service, the password
helpers of package `hash`, the wall clock and the random source.  The
collaborators are parameters of the embedding.  The repository acts on an
abstract store state `σ`; every collaborator call the service makes is
appended to a call log, so that "which calls were issued, in which order,
with which arguments" is a value theorems can talk about.

Modelling conventions:

* a repository lookup reads the store and leaves it as it is; a mutating
  repository method returns its error together with the store it leaves;
* the mail service, the token service and the password helpers answer as
  functions of their arguments; within one service call each of them is asked
  at most once per argument, and so is the clock;
* a `*user.User` is passed by value: the repository does not rewrite the
  fields of the record the service goes on to read (`Email` at line 71);
* a lookup that returns no error returns a user (never a nil pointer);
* dereferencing a nil `VerificationCode` or `VerificationCodeExpireAt` is a
  panic, kept as an outcome of its own.
-/

namespace ArtSSO

/-! ## Go runtime pieces used by the service -/

/-- An instant of `time.Time`, as a count of nanoseconds on the wall clock. -/
abbrev Time := Int

/-- The method `Time.After`: `t.After(u)` reports whether `t` is strictly later than `u`. -/
def Time.After (t u : Time) : Bool := decide (u < t)

/-- The method `Time.Add` for a duration given in nanoseconds. -/
def Time.Add (t : Time) (d : Int) : Time := t + d

/-- Two's-complement reduction of an integer to the range of Go's `int64`
(`time.Duration` is an `int64` and its arithmetic wraps). -/
def wrapInt64 (x : Int) : Int := (x + 2 ^ 63) % 2 ^ 64 - 2 ^ 63

/-- The constant `time.Second`, in nanoseconds. -/
def Second : Int := 1000000000

/-- A Go `error` value: a sentinel created by `errors.New` (compared by
identity, here by name) or an error wrapping another one (`%w`). -/
inductive GoError where
  | sentinel (name : String)
  | wrap (msg : String) (inner : GoError)
deriving DecidableEq, Repr

/-- The function `errors.Is`: `err` equals `target` or wraps, at some depth, an error equal to it. -/
def errorsIs : GoError → GoError → Bool
  | .sentinel n, target => decide (GoError.sentinel n = target)
  | .wrap m inner, target => decide (GoError.wrap m inner = target) || errorsIs inner target

/-- The sentinel `gorm.ErrRecordNotFound`. -/
def gormErrRecordNotFound : GoError := .sentinel "record not found"

/-- The table `hextable` of `encoding/hex`. -/
def hextable : List Char :=
  ['0', '1', '2', '3', '4', '5', '6', '7', '8', '9', 'a', 'b', 'c', 'd', 'e', 'f']

/-- The function `hex.EncodeToString`: two characters per byte, high nibble first. -/
def hexEncodeToString (src : List Nat) : String :=
  String.mk (src.flatMap fun v => [hextable.getD (v % 256 / 16) '0', hextable.getD (v % 256 % 16) '0'])

deriving instance DecidableEq for Except

/-- The outcome of running a Go function body: it returns a value, or the
goroutine panics (here: a nil pointer dereference). -/
inductive Outcome (α : Type) where
  | returned (value : α)
  | panicked
deriving DecidableEq, Repr

/-! ## Data model -/

/-- Modelled from the spec: the record `user.User` of `internal/domain/user`,
whose declaration is not among the sources.  The fields are the ones the
service and the repository test read or write (`Email`, `Password`, `Salt`,
`EmailVerified`, the two pointer fields `VerificationCode` and
`VerificationCodeExpireAt`), the identity behind `IDAsString` and the
`RefreshToken` of the spec's data model.  A nil pointer is `none`. -/
structure User where
  ID : Nat := 0
  Email : String := ""
  Password : String := ""
  Salt : String := ""
  EmailVerified : Bool := false
  VerificationCode : Option String := none
  VerificationCodeExpireAt : Option Time := none
  RefreshToken : String := ""
deriving DecidableEq, Repr

/-- Modelled from the spec: the method `User.IsEmailVerified` of the domain
package (not among the sources): the boolean gate `EmailVerified`. -/
def User.IsEmailVerified (u : User) : Bool := u.EmailVerified

/-- Modelled from the spec: the method `User.IDAsString` of the domain package
(not among the sources): the identity rendered as a string. -/
def User.IDAsString (u : User) : String := toString u.ID

/-- Modelled from the spec: the sentinel errors of package `customerror`
(declared outside the sources) that the service returns, one per error kind. -/
inductive CustomError where
  | ErrInvalidCredentials
  | ErrInternal
  | ErrEmailInUse
  | ErrSendingEmail
  | ErrUserNotFound
  | ErrInvalidVerificationCode
deriving DecidableEq, Repr

/-- Modelled from the spec: the token kinds `IdToken`, `AccessToken` and
`RefreshToken` of package `tokenservice` (declared outside the sources), a
closed enumeration of three distinct values. -/
inductive TokenType where
  | IdToken
  | AccessToken
  | RefreshToken
deriving DecidableEq, Repr

/-- Modelled from the spec: the argument record `tokenservice.GenerateTokenInput`
(declared outside the sources), with the four fields set at lines 128-138. -/
structure GenerateTokenInput where
  Id : String
  Email : String
  ExpirationInSeconds : Nat
  TokenType : TokenType
deriving DecidableEq, Repr

/-- Modelled from the spec: the result record `Tokens` (declared outside the
sources), with the three string fields set at lines 52-54; its zero value has
three empty strings. -/
structure Tokens where
  IdToken : String := ""
  AccessToken : String := ""
  RefreshToken : String := ""
deriving DecidableEq, Repr

/-- Modelled from the spec: the argument record `SignUpInput` (declared outside
the sources), with the fields read at lines 18 and 23. -/
structure SignUpInput where
  Email : String
  Password : String
deriving DecidableEq, Repr

/-- Modelled from the spec: the argument record `SignInInput` (declared outside
the sources), with the fields read at lines 29 and 38. -/
structure SignInInput where
  Email : String
  Password : String
deriving DecidableEq, Repr

/-- Modelled from the spec: the argument record `VerifyEmailCodeInput` (declared
outside the sources), with the fields read at lines 80 and 85. -/
structure VerifyEmailCodeInput where
  Email : String
  Code : String
deriving DecidableEq, Repr

/-! ## Collaborators -/

/-- The methods of the user repository that the service calls, over a store
state `σ`: `GetUserByEmail`, `UpdateVerificationCode` and `CreateUnverifiedUser`
of `interface.go`, and `UpdateRefreshToken` and `VerifyUserEmail`, which the
service calls at lines 47 and 93.  A lookup reads the store; a mutating method
returns its `error` (`none` is `nil`) together with the store state it leaves
behind. -/
structure UserRepository (σ : Type) where
  GetUserByEmail : σ → String → Except GoError User
  UpdateVerificationCode : σ → User → String → Time → Option GoError × σ
  CreateUnverifiedUser : σ → User → String → Time → Option GoError × σ
  UpdateRefreshToken : σ → User → String → Option GoError × σ
  VerifyUserEmail : σ → User → Option GoError × σ

/-- The mail service: `SendVerificationEmail(email, code)` returns an `error`. -/
structure MailService where
  SendVerificationEmail : String → String → Option GoError

/-- The token service: `GenerateToken(input)` returns a token string or an `error`. -/
structure TokenService where
  GenerateToken : GenerateTokenInput → Except GoError String

/-- Modelled from the spec: the receiver `AuthServiceImpl` (declared outside the
sources): the three collaborators reached through `s.userRepo`,
`s.mailService` and `s.tokenService`. -/
structure AuthServiceImpl (σ : Type) where
  userRepo : UserRepository σ
  mailService : MailService
  tokenService : TokenService

/-- What the service reaches through package-level functions rather than
through its receiver: the password helpers of package `hash`, the reading
`time.Now()` of the wall clock and the bytes `rand.Read` draws. -/
structure Runtime where
  HashPassword : String → Except GoError String
  VerifyPassword : String → String → Bool
  timeNow : Time
  randByte : Nat → Nat

/-- One collaborator call, with its arguments. -/
inductive Call where
  | GetUserByEmail (email : String)
  | UpdateVerificationCode (user : User) (verificationCode : String) (expireAt : Time)
  | CreateUnverifiedUser (user : User) (verificationCode : String) (expireAt : Time)
  | UpdateRefreshToken (user : User) (refreshToken : String)
  | VerifyUserEmail (user : User)
  | SendVerificationEmail (email : String) (verificationCode : String)
  | GenerateToken (input : GenerateTokenInput)
  | HashPassword (password : String)
  | VerifyPassword (password : String) (hashedPassword : String)
deriving DecidableEq, Repr

/-- The state a service call runs in: the store and the log of collaborator
calls issued so far (oldest first). -/
structure World (σ : Type) where
  store : σ
  calls : List Call
deriving DecidableEq, Repr

/-- Append a call to the log. -/
def World.log {σ : Type} (w : World σ) (c : Call) : World σ :=
  { w with calls := w.calls ++ [c] }

/-- A world with the given store and an empty call log. -/
def World.init {σ : Type} (store : σ) : World σ := { store := store, calls := [] }

/-! ## The service -/

/-- The function `rand.Read` on a fresh slice of `n` bytes; its error result is
dropped at line 148, so the slice holds whatever bytes it was left with. -/
def randRead (rt : Runtime) (n : Nat) : List Nat :=
  (List.range n).map fun i => rt.randByte i % 256

/-- The function `generateVerificationCodeWithExpireTime` (lines 146-152).  The
parameter is a `uint`, 64 bits wide; `time.Duration(timeInMills) * time.Second`
is `int64` arithmetic and wraps around. -/
def generateVerificationCodeWithExpireTime (rt : Runtime) (timeInMills : Nat) : String × Time :=
  let bytes := randRead rt 3
  let expireAt := rt.timeNow.Add (wrapInt64 (wrapInt64 (timeInMills % 2 ^ 64) * Second))
  (hexEncodeToString bytes, expireAt)

/-- The method `VerifyEmailCode` (lines 79-99). -/
def VerifyEmailCode {σ : Type} (s : AuthServiceImpl σ) (rt : Runtime)
    (input : VerifyEmailCodeInput) (w : World σ) : Outcome (Option CustomError) × World σ :=
  let w := w.log (.GetUserByEmail input.Email)
  match s.userRepo.GetUserByEmail w.store input.Email with
  | .error _ => (.returned (some .ErrUserNotFound), w)
  | .ok user =>
    match user.VerificationCode with
    | none => (.panicked, w)
    | some storedCode =>
      if storedCode != input.Code then
        (.returned (some .ErrInvalidVerificationCode), w)
      else
        match user.VerificationCodeExpireAt with
        | none => (.panicked, w)
        | some expireAt =>
          if rt.timeNow.After expireAt then
            (.returned (some .ErrInvalidVerificationCode), w)
          else
            let w := w.log (.VerifyUserEmail user)
            match s.userRepo.VerifyUserEmail w.store user with
            | (some _, store) => (.returned (some .ErrInvalidVerificationCode), { w with store := store })
            | (none, store) => (.returned none, { w with store := store })

/-- The argument of the identity-token request (line 128). -/
def idTokenInput (user : User) : GenerateTokenInput :=
  { Id := user.IDAsString, Email := user.Email, ExpirationInSeconds := 60 * 60 * 24 * 3,
    TokenType := .IdToken }

/-- The argument of the access-token request (line 133). -/
def accessTokenInput (user : User) : GenerateTokenInput :=
  { Id := user.IDAsString, Email := user.Email, ExpirationInSeconds := 60 * 60 * 24 * 3,
    TokenType := .AccessToken }

/-- The argument of the refresh-token request (line 138). -/
def refreshTokenInput (user : User) : GenerateTokenInput :=
  { Id := user.IDAsString, Email := user.Email, ExpirationInSeconds := 60 * 60 * 24 * 7,
    TokenType := .RefreshToken }

/-- The method `generateTokens` (lines 127-144): identity, access and refresh
token, requested in this order; the first failure ends the run. -/
def generateTokens {σ : Type} (s : AuthServiceImpl σ) (user : User) (w : World σ) :
    Except GoError (String × String × String) × World σ :=
  let w := w.log (.GenerateToken (idTokenInput user))
  match s.tokenService.GenerateToken (idTokenInput user) with
  | .error err => (.error err, w)
  | .ok idToken =>
    let w := w.log (.GenerateToken (accessTokenInput user))
    match s.tokenService.GenerateToken (accessTokenInput user) with
    | .error err => (.error err, w)
    | .ok accessToken =>
      let w := w.log (.GenerateToken (refreshTokenInput user))
      match s.tokenService.GenerateToken (refreshTokenInput user) with
      | .error err => (.error err, w)
      | .ok refreshToken => (.ok (idToken, accessToken, refreshToken), w)

/-- The method `SignInWithEmail` (lines 26-57).  The result pairs the `Tokens`
value with the `error` (`none` is `nil`). -/
def SignInWithEmail {σ : Type} (s : AuthServiceImpl σ) (rt : Runtime)
    (input : SignInInput) (w : World σ) : (Tokens × Option CustomError) × World σ :=
  let tokens : Tokens := {}
  let w := w.log (.GetUserByEmail input.Email)
  match s.userRepo.GetUserByEmail w.store input.Email with
  | .error err =>
    if errorsIs err gormErrRecordNotFound then
      ((tokens, some .ErrInvalidCredentials), w)
    else
      ((tokens, some .ErrInternal), w)
  | .ok user =>
    let w := w.log (.VerifyPassword input.Password user.Password)
    if !rt.VerifyPassword input.Password user.Password || !user.IsEmailVerified then
      ((tokens, some .ErrInvalidCredentials), w)
    else
      match generateTokens s user w with
      | (.error _, w) => ((tokens, some .ErrInternal), w)
      | (.ok (idToken, accessToken, refreshToken), w) =>
        let w := w.log (.UpdateRefreshToken user refreshToken)
        match s.userRepo.UpdateRefreshToken w.store user refreshToken with
        | (some _, store) => ((tokens, some .ErrInternal), { w with store := store })
        | (none, store) =>
          (({ IdToken := idToken, AccessToken := accessToken, RefreshToken := refreshToken }, none),
            { w with store := store })

/-- The method `updateExistingUser` (lines 59-77). -/
def updateExistingUser {σ : Type} (s : AuthServiceImpl σ) (rt : Runtime)
    (existingUser : User) (w : World σ) : (String × Option CustomError) × World σ :=
  if existingUser.IsEmailVerified then
    (("", some .ErrEmailInUse), w)
  else
    let generated := generateVerificationCodeWithExpireTime rt 180
    let verificationCode := generated.1
    let expireAt := generated.2
    let w := w.log (.UpdateVerificationCode existingUser verificationCode expireAt)
    match s.userRepo.UpdateVerificationCode w.store existingUser verificationCode expireAt with
    | (some _, store) => (("", some .ErrInternal), { w with store := store })
    | (none, store) =>
      let w := { w with store := store }
      let w := w.log (.SendVerificationEmail existingUser.Email verificationCode)
      match s.mailService.SendVerificationEmail existingUser.Email verificationCode with
      | some _ => (("", some .ErrSendingEmail), w)
      | none => (("Verification code was sent to user email", none), w)

/-- The method `createNewUser` (lines 101-125). -/
def createNewUser {σ : Type} (s : AuthServiceImpl σ) (rt : Runtime)
    (email password : String) (w : World σ) : (String × Option CustomError) × World σ :=
  let generated := generateVerificationCodeWithExpireTime rt 180
  let verificationCode := generated.1
  let expireAt := generated.2
  let w := w.log (.HashPassword password)
  match rt.HashPassword password with
  | .error _ => (("", some .ErrInternal), w)
  | .ok hashedPassword =>
    let newUser : User := { Email := email, Password := hashedPassword }
    let w := w.log (.CreateUnverifiedUser newUser verificationCode expireAt)
    match s.userRepo.CreateUnverifiedUser w.store newUser verificationCode expireAt with
    | (some _, store) => (("", some .ErrInternal), { w with store := store })
    | (none, store) =>
      let w := { w with store := store }
      let w := w.log (.SendVerificationEmail email verificationCode)
      match s.mailService.SendVerificationEmail email verificationCode with
      | some _ => (("", some .ErrSendingEmail), w)
      | none => (("Verification code was sent to user email", none), w)

/-- The method `SignUpWithEmail` (lines 17-24): a lookup without error goes to
`updateExistingUser`, every lookup error to `createNewUser`. -/
def SignUpWithEmail {σ : Type} (s : AuthServiceImpl σ) (rt : Runtime)
    (input : SignUpInput) (w : World σ) : (String × Option CustomError) × World σ :=
  let w := w.log (.GetUserByEmail input.Email)
  match s.userRepo.GetUserByEmail w.store input.Email with
  | .ok existingUser => updateExistingUser s rt existingUser w
  | .error _ => createNewUser s rt input.Email input.Password w

/-! ## Vocabulary for reading the call log -/

/-- The call is one of the repository's mutating methods. -/
def Call.isStoreWrite : Call → Bool
  | .UpdateVerificationCode _ _ _ => true
  | .CreateUnverifiedUser _ _ _ => true
  | .UpdateRefreshToken _ _ => true
  | .VerifyUserEmail _ => true
  | _ => false

/-- The call is a token request to the token service. -/
def Call.isGenerateToken : Call → Bool
  | .GenerateToken _ => true
  | _ => false

/-- The call is a notification through the mail service. -/
def Call.isSendVerificationEmail : Call → Bool
  | .SendVerificationEmail _ _ => true
  | _ => false

/-- The call is to one of the password helpers of package `hash`. -/
def Call.isHasher : Call → Bool
  | .HashPassword _ => true
  | .VerifyPassword _ _ => true
  | _ => false

/-! ## Concrete collaborators used as inputs in the examples -/

/-- Modelled from the spec: an in-memory credential store (the repository
implementation behind `UserRepository` is not among the sources).  Users are
looked up by e-mail; an unknown e-mail is the not-found error; creation appends
one unverified row carrying the code; the updates rewrite the row with the
same e-mail; verification marks the row verified and clears the pending code. -/
def memRepo : UserRepository (List User) where
  GetUserByEmail store email :=
    match store.find? fun u => u.Email == email with
    | some u => .ok u
    | none => .error gormErrRecordNotFound
  UpdateVerificationCode store user verificationCode expireAt :=
    (none, store.map fun u =>
      if u.Email == user.Email then
        { u with VerificationCode := some verificationCode, VerificationCodeExpireAt := some expireAt }
      else u)
  CreateUnverifiedUser store user verificationCode expireAt :=
    (none, store ++ [{ user with
      ID := store.length + 1, EmailVerified := false,
      VerificationCode := some verificationCode, VerificationCodeExpireAt := some expireAt }])
  UpdateRefreshToken store user refreshToken :=
    (none, store.map fun u => if u.Email == user.Email then { u with RefreshToken := refreshToken } else u)
  VerifyUserEmail store user :=
    (none, store.map fun u =>
      if u.Email == user.Email then
        { u with EmailVerified := true, VerificationCode := none, VerificationCodeExpireAt := none }
      else u)

/-- The in-memory store with every mutating method failing and leaving the store as it was. -/
def memRepoWriteFailing : UserRepository (List User) where
  GetUserByEmail := memRepo.GetUserByEmail
  UpdateVerificationCode store _ _ _ := (some (.sentinel "write failed"), store)
  CreateUnverifiedUser store _ _ _ := (some (.sentinel "write failed"), store)
  UpdateRefreshToken store _ _ := (some (.sentinel "write failed"), store)
  VerifyUserEmail store _ := (some (.sentinel "write failed"), store)

/-- The in-memory store with every lookup failing with the error `err`. -/
def memRepoLookupFailing (err : GoError) : UserRepository (List User) where
  GetUserByEmail _ _ := .error err
  UpdateVerificationCode := memRepo.UpdateVerificationCode
  CreateUnverifiedUser := memRepo.CreateUnverifiedUser
  UpdateRefreshToken := memRepo.UpdateRefreshToken
  VerifyUserEmail := memRepo.VerifyUserEmail

/-- Modelled from the spec: an in-memory credential store whose creation is a
create-or-update of the row by e-mail (section 5 speaks of "a create-or-update
of a user row by email" that leaves no duplicate row): a row with the e-mail
of the new user is replaced by the new unverified record, keeping its id;
otherwise one row is appended.  Every other method is the one of `memRepo`. -/
def memRepoUpsert : UserRepository (List User) where
  GetUserByEmail := memRepo.GetUserByEmail
  UpdateVerificationCode := memRepo.UpdateVerificationCode
  CreateUnverifiedUser store user verificationCode expireAt :=
    if store.any (fun u => u.Email == user.Email) then
      (none, store.map fun u =>
        if u.Email == user.Email then
          { user with
            ID := u.ID, EmailVerified := false,
            VerificationCode := some verificationCode, VerificationCodeExpireAt := some expireAt }
        else u)
    else
      (none, store ++ [{ user with
        ID := store.length + 1, EmailVerified := false,
        VerificationCode := some verificationCode, VerificationCodeExpireAt := some expireAt }])
  UpdateRefreshToken := memRepo.UpdateRefreshToken
  VerifyUserEmail := memRepo.VerifyUserEmail

/-- The create-or-update store at a moment when its lookups fail with the error
`err` while its writes go through. -/
def memRepoUpsertLookupFailing (err : GoError) : UserRepository (List User) where
  GetUserByEmail _ _ := .error err
  UpdateVerificationCode := memRepoUpsert.UpdateVerificationCode
  CreateUnverifiedUser := memRepoUpsert.CreateUnverifiedUser
  UpdateRefreshToken := memRepoUpsert.UpdateRefreshToken
  VerifyUserEmail := memRepoUpsert.VerifyUserEmail

/-- A mail service that delivers. -/
def mailOk : MailService where
  SendVerificationEmail _ _ := none

/-- A mail service whose transport fails. -/
def mailDown : MailService where
  SendVerificationEmail _ _ := some (.sentinel "smtp unavailable")

/-- A token service that answers each kind with a different string. -/
def tokensByKind : TokenService where
  GenerateToken input :=
    match input.TokenType with
    | .IdToken => .ok "id.jwt"
    | .AccessToken => .ok "access.jwt"
    | .RefreshToken => .ok "refresh.jwt"

/-- A token service that answers every request with the same string `t`. -/
def tokensConstant (t : String) : TokenService where
  GenerateToken _ := .ok t

/-- A token service on which only requests of the kinds listed succeed. -/
def tokensOnly (kinds : List TokenType) : TokenService where
  GenerateToken input :=
    if input.TokenType ∈ kinds then tokensByKind.GenerateToken input
    else .error (.sentinel "signing failed")

/-- A runtime whose hash of `p` is `p` behind a marker, at clock reading `now`,
drawing the bytes `de ad 42`. -/
def sampleRuntime (now : Time) : Runtime where
  HashPassword p := .ok ("hash:" ++ p)
  VerifyPassword p hashed := hashed == "hash:" ++ p
  timeNow := now
  randByte i := [0xde, 0xad, 0x42].getD i 0

/-- The service over the in-memory store with a working mail and token service. -/
def sampleService : AuthServiceImpl (List User) where
  userRepo := memRepo
  mailService := mailOk
  tokenService := tokensByKind

/-- An unverified account with the pending code `c0ffee` expiring at instant 500. -/
def pendingUser : User :=
  { ID := 1, Email := "a@x.com", Password := "hash:pw1",
    VerificationCode := some "c0ffee", VerificationCodeExpireAt := some 500 }

/-- A verified account whose pending code was cleared. -/
def verifiedUser : User :=
  { ID := 2, Email := "b@x.com", Password := "hash:pw2", EmailVerified := true }

/-! ## Reading a hexadecimal string back -/

/-- The value of a hexadecimal digit: its position in `hextable`. -/
def hexDigitValue (c : Char) : Nat := hextable.indexOf c

/-- The bytes a string of hexadecimal digit pairs denotes, high digit first
(the reading `hex.DecodeString` inverts `hex.EncodeToString` with). -/
def hexDecode : List Char → List Nat
  | hi :: lo :: rest => (16 * hexDigitValue hi + hexDigitValue lo) :: hexDecode rest
  | _ => []

/-! ## Basic facts about the call log -/

@[simp] theorem World.log_store {σ : Type} (w : World σ) (c : Call) : (w.log c).store = w.store := rfl

@[simp] theorem World.log_calls {σ : Type} (w : World σ) (c : Call) :
    (w.log c).calls = w.calls ++ [c] := rfl

/-! ## E-mail code verification -/

/-- C1 (counterexample): with the stored code `c0ffee` expiring at instant 500,
a call with the matching code made at instant 500 exactly, which is not
strictly before the expiry, returns success; and a call made at instant 499,
strictly before the expiry and with the matching code, returns
`InvalidVerificationCode` when the store fails to commit the verification. -/
theorem VerifyEmailCode_boundary_and_commit_counterexample :
    (memRepo.GetUserByEmail [pendingUser] "a@x.com" = .ok pendingUser ∧
      pendingUser.VerificationCode = some "c0ffee" ∧
      pendingUser.VerificationCodeExpireAt = some 500 ∧
      ¬ ((sampleRuntime 500).timeNow < 500) ∧
      (VerifyEmailCode sampleService (sampleRuntime 500) ⟨"a@x.com", "c0ffee"⟩
        (World.init [pendingUser])).1 = .returned none) ∧
    ((sampleRuntime 499).timeNow < 500 ∧
      (VerifyEmailCode { sampleService with userRepo := memRepoWriteFailing } (sampleRuntime 499)
        ⟨"a@x.com", "c0ffee"⟩ (World.init [pendingUser])).1
        = .returned (some .ErrInvalidVerificationCode)) := by
  decide

/-- C1 (amended): a lookup error makes `VerifyEmailCode` return `UserNotFound`.
For a found user whose pending code and expiry are present, the call returns
success if and only if the supplied code equals the stored one, the current
time is not after the stored expiry (the instant equal to the expiry still
validates) and the store's `VerifyUserEmail` succeeds; in every other case for
such a user it returns `InvalidVerificationCode`. -/
theorem VerifyEmailCode_result {σ : Type} (s : AuthServiceImpl σ) (rt : Runtime)
    (input : VerifyEmailCodeInput) (w : World σ) :
    (∀ err, s.userRepo.GetUserByEmail w.store input.Email = .error err →
      (VerifyEmailCode s rt input w).1 = .returned (some .ErrUserNotFound)) ∧
    (∀ user storedCode expireAt,
      s.userRepo.GetUserByEmail w.store input.Email = .ok user →
      user.VerificationCode = some storedCode →
      user.VerificationCodeExpireAt = some expireAt →
      ((VerifyEmailCode s rt input w).1 = .returned none ↔
        (input.Code = storedCode ∧ rt.timeNow ≤ expireAt ∧
          (s.userRepo.VerifyUserEmail w.store user).1 = none)) ∧
      ((VerifyEmailCode s rt input w).1 ≠ .returned none →
        (VerifyEmailCode s rt input w).1 = .returned (some .ErrInvalidVerificationCode))) := by
  refine ⟨?_, ?_⟩
  · intro err herr
    simp [VerifyEmailCode, herr]
  · intro user storedCode expireAt huser hcode hexp
    simp only [VerifyEmailCode, World.log_store, huser, hcode, hexp]
    by_cases hc : storedCode = input.Code
    · by_cases ht : expireAt < rt.timeNow
      · simp [hc, Time.After, ht]
      · rcases hv : s.userRepo.VerifyUserEmail w.store user with ⟨e, st⟩
        cases e <;> simp [hc, Time.After, ht, not_lt.mp ht]
    · have hc2 : ¬ input.Code = storedCode := fun h => hc h.symm
      simp [hc, hc2]

/-- C1 (witness): on the in-memory store, the pending code `c0ffee` verifies
at instant 499, and an unknown e-mail is reported as `UserNotFound`. -/
theorem VerifyEmailCode_result_witness :
    (VerifyEmailCode sampleService (sampleRuntime 499) ⟨"zz@x.com", "c0ffee"⟩
        (World.init [pendingUser])).1 = .returned (some .ErrUserNotFound) ∧
    ((VerifyEmailCode sampleService (sampleRuntime 499) ⟨"a@x.com", "c0ffee"⟩
        (World.init [pendingUser])).1 = .returned none ↔
      ("c0ffee" = "c0ffee" ∧ (sampleRuntime 499).timeNow ≤ 500 ∧
        (sampleService.userRepo.VerifyUserEmail (World.init [pendingUser]).store pendingUser).1
          = none)) :=
  ⟨(VerifyEmailCode_result sampleService (sampleRuntime 499) ⟨"zz@x.com", "c0ffee"⟩
      (World.init [pendingUser])).1 gormErrRecordNotFound (by decide),
   ((VerifyEmailCode_result sampleService (sampleRuntime 499) ⟨"a@x.com", "c0ffee"⟩
      (World.init [pendingUser])).2 pendingUser "c0ffee" 500 (by decide) (by decide)
      (by decide)).1⟩

/-! ## Sign-in: rejected credentials -/

/-- C2: in each of the three cases (a) the lookup reports not-found, (b) the
user exists and the password does not verify against the stored hash, (c) the
password verifies and the user is not e-mail-verified, `SignInWithEmail`
returns `InvalidCredentials` with the empty `Tokens` value, leaves the store
as it was, and the calls it adds to the log contain no token request and no
store write. -/
theorem SignInWithEmail_invalid_credentials {σ : Type} (s : AuthServiceImpl σ) (rt : Runtime)
    (input : SignInInput) (w : World σ)
    (h : (∃ err, s.userRepo.GetUserByEmail w.store input.Email = .error err ∧
            errorsIs err gormErrRecordNotFound = true) ∨
         (∃ user, s.userRepo.GetUserByEmail w.store input.Email = .ok user ∧
            rt.VerifyPassword input.Password user.Password = false) ∨
         (∃ user, s.userRepo.GetUserByEmail w.store input.Email = .ok user ∧
            rt.VerifyPassword input.Password user.Password = true ∧
            user.IsEmailVerified = false)) :
    (SignInWithEmail s rt input w).1 = (({} : Tokens), some .ErrInvalidCredentials) ∧
    (SignInWithEmail s rt input w).2.store = w.store ∧
    ∃ added, (SignInWithEmail s rt input w).2.calls = w.calls ++ added ∧
      ∀ c ∈ added, c.isGenerateToken = false ∧ c.isStoreWrite = false := by
  rcases h with ⟨err, hl, hnf⟩ | ⟨user, hl, hpw⟩ | ⟨user, hl, hpw, hver⟩
  · refine ⟨by simp [SignInWithEmail, hl, hnf], by simp [SignInWithEmail, hl, hnf],
      [.GetUserByEmail input.Email], by simp [SignInWithEmail, hl, hnf], ?_⟩
    simp [Call.isGenerateToken, Call.isStoreWrite]
  · refine ⟨by simp [SignInWithEmail, hl, hpw], by simp [SignInWithEmail, hl, hpw],
      [.GetUserByEmail input.Email, .VerifyPassword input.Password user.Password],
      by simp [SignInWithEmail, hl, hpw], ?_⟩
    simp [Call.isGenerateToken, Call.isStoreWrite]
  · refine ⟨by simp [SignInWithEmail, hl, hpw, hver], by simp [SignInWithEmail, hl, hpw, hver],
      [.GetUserByEmail input.Email, .VerifyPassword input.Password user.Password],
      by simp [SignInWithEmail, hl, hpw, hver], ?_⟩
    simp [Call.isGenerateToken, Call.isStoreWrite]

/-- C2 (witness): signing in to the unverified account `a@x.com` with its
correct password is rejected with `InvalidCredentials`. -/
theorem SignInWithEmail_invalid_credentials_witness :
    (SignInWithEmail sampleService (sampleRuntime 5) ⟨"a@x.com", "pw1"⟩
        (World.init [pendingUser])).1 = (({} : Tokens), some .ErrInvalidCredentials) :=
  (SignInWithEmail_invalid_credentials sampleService (sampleRuntime 5) ⟨"a@x.com", "pw1"⟩
    (World.init [pendingUser])
    (Or.inr (Or.inr ⟨pendingUser, by decide, by decide, by decide⟩))).1

/-! ## Sign-up -/

/-- C3: when the lookup returns a user that is already e-mail-verified,
`SignUpWithEmail` returns the empty message with `EmailInUse`, whatever the
password; the store is left as it was and the only call added to the log is
the lookup itself (no store write, no notification). -/
theorem SignUpWithEmail_verified_user {σ : Type} (s : AuthServiceImpl σ) (rt : Runtime)
    (input : SignUpInput) (w : World σ) (user : User)
    (hfound : s.userRepo.GetUserByEmail w.store input.Email = .ok user)
    (hverified : user.IsEmailVerified = true) :
    (SignUpWithEmail s rt input w).1 = ("", some .ErrEmailInUse) ∧
    (SignUpWithEmail s rt input w).2.store = w.store ∧
    (SignUpWithEmail s rt input w).2.calls = w.calls ++ [.GetUserByEmail input.Email] := by
  simp [SignUpWithEmail, updateExistingUser, hfound, hverified]

/-- C3 (witness): signing up again with the verified address `b@x.com`. -/
theorem SignUpWithEmail_verified_user_witness :
    (SignUpWithEmail sampleService (sampleRuntime 5) ⟨"b@x.com", "other"⟩
        (World.init [pendingUser, verifiedUser])).1 = ("", some .ErrEmailInUse) ∧
    (SignUpWithEmail sampleService (sampleRuntime 5) ⟨"b@x.com", "other"⟩
        (World.init [pendingUser, verifiedUser])).2.store = [pendingUser, verifiedUser] ∧
    (SignUpWithEmail sampleService (sampleRuntime 5) ⟨"b@x.com", "other"⟩
        (World.init [pendingUser, verifiedUser])).2.calls = [] ++ [.GetUserByEmail "b@x.com"] :=
  SignUpWithEmail_verified_user sampleService (sampleRuntime 5) ⟨"b@x.com", "other"⟩
    (World.init [pendingUser, verifiedUser]) verifiedUser (by decide) (by decide)

/-! ## The generated verification code -/

/-- The hex encoding has two characters per byte. -/
theorem hexEncodeToString_length (src : List Nat) :
    (hexEncodeToString src).length = 2 * src.length := by
  induction src with
  | nil => rfl
  | cons v rest ih =>
    simp only [hexEncodeToString, String.length, List.flatMap_cons, List.length_append,
      List.length_cons, List.length_nil] at ih ⊢
    omega

/-- The generated code has six characters. -/
theorem generated_code_length (rt : Runtime) (timeInMills : Nat) :
    (generateVerificationCodeWithExpireTime rt timeInMills).1.length = 6 := by
  simp [generateVerificationCodeWithExpireTime, hexEncodeToString_length, randRead]

/-- The generated code is not the empty string. -/
theorem generated_code_ne_empty (rt : Runtime) (timeInMills : Nat) :
    (generateVerificationCodeWithExpireTime rt timeInMills).1 ≠ "" := by
  intro h
  have hlen := generated_code_length rt timeInMills
  rw [h] at hlen
  exact absurd hlen (by decide)

/-- With the argument 180 the expiry is the clock reading plus 180 seconds. -/
theorem generated_expiry_180 (rt : Runtime) :
    (generateVerificationCodeWithExpireTime rt 180).2 = rt.timeNow + 180 * Second := by
  simp only [generateVerificationCodeWithExpireTime, Time.Add]
  have h : wrapInt64 (wrapInt64 (((180 : Nat) : Int) % 2 ^ 64) * Second) = 180 * Second := by decide
  simpa using h

/-- C4: when the lookup returns an error (the e-mail is not in the store) and
hashing, `CreateUnverifiedUser` and the mail service succeed, `SignUpWithEmail`
returns the success message with no error; the calls it adds to the log are the
lookup, the hashing, one `CreateUnverifiedUser` and one `SendVerificationEmail`,
in this order and nothing else; the store is the one the creation left; the
user handed to the store is unverified, the code handed over is non-empty and
the expiry handed over is strictly later than the clock reading. -/
theorem SignUpWithEmail_new_user {σ : Type} (s : AuthServiceImpl σ) (rt : Runtime)
    (input : SignUpInput) (w : World σ) (err : GoError) (hashedPassword : String) (created : σ)
    (hlookup : s.userRepo.GetUserByEmail w.store input.Email = .error err)
    (hhash : rt.HashPassword input.Password = .ok hashedPassword)
    (hcreate : s.userRepo.CreateUnverifiedUser w.store
        { Email := input.Email, Password := hashedPassword }
        (generateVerificationCodeWithExpireTime rt 180).1
        (generateVerificationCodeWithExpireTime rt 180).2 = (none, created))
    (hmail : s.mailService.SendVerificationEmail input.Email
        (generateVerificationCodeWithExpireTime rt 180).1 = none) :
    (SignUpWithEmail s rt input w).1 = ("Verification code was sent to user email", none) ∧
    (SignUpWithEmail s rt input w).2.store = created ∧
    (SignUpWithEmail s rt input w).2.calls = w.calls ++
      [.GetUserByEmail input.Email, .HashPassword input.Password,
       .CreateUnverifiedUser { Email := input.Email, Password := hashedPassword }
          (generateVerificationCodeWithExpireTime rt 180).1
          (generateVerificationCodeWithExpireTime rt 180).2,
       .SendVerificationEmail input.Email (generateVerificationCodeWithExpireTime rt 180).1] ∧
    ({ Email := input.Email, Password := hashedPassword } : User).IsEmailVerified = false ∧
    (generateVerificationCodeWithExpireTime rt 180).1 ≠ "" ∧
    rt.timeNow < (generateVerificationCodeWithExpireTime rt 180).2 := by
  refine ⟨?_, ?_, ?_, rfl, generated_code_ne_empty rt 180, ?_⟩
  · simp only [SignUpWithEmail, createNewUser, World.log_store, hlookup, hhash, hcreate, hmail]
  · simp only [SignUpWithEmail, createNewUser, World.log_store, hlookup, hhash, hcreate, hmail]
  · simp only [SignUpWithEmail, createNewUser, World.log_store, hlookup, hhash, hcreate, hmail]
    simp [World.log]
  · rw [generated_expiry_180]
    exact lt_add_of_pos_right _ (by decide)

/-- C4 (witness): signing up the unknown address `c@x.com` at clock reading 5. -/
theorem SignUpWithEmail_new_user_witness :
    (SignUpWithEmail sampleService (sampleRuntime 5) ⟨"c@x.com", "pw"⟩
        (World.init [pendingUser])).1 = ("Verification code was sent to user email", none) :=
  (SignUpWithEmail_new_user sampleService (sampleRuntime 5) ⟨"c@x.com", "pw"⟩
    (World.init [pendingUser]) gormErrRecordNotFound "hash:pw"
    [pendingUser,
      { ID := 2, Email := "c@x.com", Password := "hash:pw",
        VerificationCode := some "dead42", VerificationCodeExpireAt := some 180000000005 }]
    (by decide) (by decide) (by decide) (by decide)).1

/-- C5: when the lookup returns an unverified user, `SignUpWithEmail` hands the
freshly generated code and expiry to `UpdateVerificationCode` together with
the user exactly as looked up (its stored password included); the calls it
adds to the log are the lookup, that update and, when the update succeeded,
the notification, so `CreateUnverifiedUser` and the password hasher are never
called; the store is the one the update left; and the outcome is the same
whatever password is supplied. -/
theorem SignUpWithEmail_unverified_user {σ : Type} (s : AuthServiceImpl σ) (rt : Runtime)
    (input : SignUpInput) (w : World σ) (user : User)
    (hfound : s.userRepo.GetUserByEmail w.store input.Email = .ok user)
    (hunverified : user.IsEmailVerified = false) :
    (∃ rest, (SignUpWithEmail s rt input w).2.calls = w.calls ++
        [.GetUserByEmail input.Email,
         .UpdateVerificationCode user (generateVerificationCodeWithExpireTime rt 180).1
            (generateVerificationCodeWithExpireTime rt 180).2] ++ rest ∧
      (rest = [] ∨
        rest = [.SendVerificationEmail user.Email
          (generateVerificationCodeWithExpireTime rt 180).1])) ∧
    (SignUpWithEmail s rt input w).2.store =
      (s.userRepo.UpdateVerificationCode w.store user
        (generateVerificationCodeWithExpireTime rt 180).1
        (generateVerificationCodeWithExpireTime rt 180).2).2 ∧
    (∀ c ∈ (SignUpWithEmail s rt input w).2.calls, c ∈ w.calls ∨
      ((∀ u code expireAt, c ≠ .CreateUnverifiedUser u code expireAt) ∧ c.isHasher = false)) ∧
    (∀ password, SignUpWithEmail s rt { input with Password := password } w
      = SignUpWithEmail s rt input w) := by
  have hrun : SignUpWithEmail s rt input w = updateExistingUser s rt user
      (w.log (.GetUserByEmail input.Email)) := by
    simp only [SignUpWithEmail, World.log_store, hfound]
  have hother : ∀ password, SignUpWithEmail s rt { input with Password := password } w
      = updateExistingUser s rt user (w.log (.GetUserByEmail input.Email)) := by
    intro password
    simp only [SignUpWithEmail, World.log_store, hfound]
  rcases hupd : s.userRepo.UpdateVerificationCode w.store user
      (generateVerificationCodeWithExpireTime rt 180).1
      (generateVerificationCodeWithExpireTime rt 180).2 with ⟨e, updated⟩
  refine ⟨?_, ?_, ?_, fun password => (hother password).trans hrun.symm⟩
  · cases e with
    | some e =>
      exact ⟨[], by simp [hrun, updateExistingUser, hunverified, hupd], Or.inl rfl⟩
    | none =>
      refine ⟨[.SendVerificationEmail user.Email
        (generateVerificationCodeWithExpireTime rt 180).1], ?_, Or.inr rfl⟩
      cases hm : s.mailService.SendVerificationEmail user.Email
          (generateVerificationCodeWithExpireTime rt 180).1 <;>
        simp [hrun, updateExistingUser, hunverified, hupd, hm]
  · cases e with
    | some e => simp [hrun, updateExistingUser, hunverified, hupd]
    | none =>
      cases hm : s.mailService.SendVerificationEmail user.Email
          (generateVerificationCodeWithExpireTime rt 180).1 <;>
        simp [hrun, updateExistingUser, hunverified, hupd, hm]
  · intro c hc
    cases e with
    | some e =>
      simp [hrun, updateExistingUser, hunverified, hupd] at hc
      rcases hc with hc | hc | hc
      · exact Or.inl hc
      · exact Or.inr (by subst hc; simp [Call.isHasher])
      · exact Or.inr (by subst hc; simp [Call.isHasher])
    | none =>
      cases hm : s.mailService.SendVerificationEmail user.Email
          (generateVerificationCodeWithExpireTime rt 180).1 <;>
        simp [hrun, updateExistingUser, hunverified, hupd, hm] at hc <;>
        rcases hc with hc | hc | hc | hc <;>
        first
          | exact Or.inl hc
          | exact Or.inr (by subst hc; simp [Call.isHasher])

/-- C5 (witness): signing up again with the unverified address `a@x.com`
rewrites its pending code in place; the store still has one row. -/
theorem SignUpWithEmail_unverified_user_witness :
    (SignUpWithEmail sampleService (sampleRuntime 5) ⟨"a@x.com", "pw9"⟩
        (World.init [pendingUser])).2.store =
      (sampleService.userRepo.UpdateVerificationCode (World.init [pendingUser]).store pendingUser
        (generateVerificationCodeWithExpireTime (sampleRuntime 5) 180).1
        (generateVerificationCodeWithExpireTime (sampleRuntime 5) 180).2).2 :=
  (SignUpWithEmail_unverified_user sampleService (sampleRuntime 5) ⟨"a@x.com", "pw9"⟩
    (World.init [pendingUser]) pendingUser (by decide) (by decide)).2.1

/-- C6: in both sign-up paths, when the store mutation succeeds and the mail
service then fails, `SignUpWithEmail` returns the empty message with
`SendingEmailFailed`, which is neither `Internal` nor success; the
notification is the last call in the log, so no store call follows the
successful mutation, and the store is exactly the one that mutation left. -/
theorem SignUpWithEmail_mail_failure {σ : Type} (s : AuthServiceImpl σ) (rt : Runtime)
    (input : SignUpInput) (w : World σ) :
    (∀ (err : GoError) (hashedPassword : String) (created : σ) (mailErr : GoError),
      s.userRepo.GetUserByEmail w.store input.Email = .error err →
      rt.HashPassword input.Password = .ok hashedPassword →
      s.userRepo.CreateUnverifiedUser w.store { Email := input.Email, Password := hashedPassword }
        (generateVerificationCodeWithExpireTime rt 180).1
        (generateVerificationCodeWithExpireTime rt 180).2 = (none, created) →
      s.mailService.SendVerificationEmail input.Email
        (generateVerificationCodeWithExpireTime rt 180).1 = some mailErr →
      (SignUpWithEmail s rt input w).1 = ("", some .ErrSendingEmail) ∧
      (SignUpWithEmail s rt input w).2.store = created ∧
      (SignUpWithEmail s rt input w).2.calls = w.calls ++
        [.GetUserByEmail input.Email, .HashPassword input.Password,
         .CreateUnverifiedUser { Email := input.Email, Password := hashedPassword }
            (generateVerificationCodeWithExpireTime rt 180).1
            (generateVerificationCodeWithExpireTime rt 180).2,
         .SendVerificationEmail input.Email (generateVerificationCodeWithExpireTime rt 180).1]) ∧
    (∀ (user : User) (updated : σ) (mailErr : GoError),
      s.userRepo.GetUserByEmail w.store input.Email = .ok user →
      user.IsEmailVerified = false →
      s.userRepo.UpdateVerificationCode w.store user
        (generateVerificationCodeWithExpireTime rt 180).1
        (generateVerificationCodeWithExpireTime rt 180).2 = (none, updated) →
      s.mailService.SendVerificationEmail user.Email
        (generateVerificationCodeWithExpireTime rt 180).1 = some mailErr →
      (SignUpWithEmail s rt input w).1 = ("", some .ErrSendingEmail) ∧
      (SignUpWithEmail s rt input w).2.store = updated ∧
      (SignUpWithEmail s rt input w).2.calls = w.calls ++
        [.GetUserByEmail input.Email,
         .UpdateVerificationCode user (generateVerificationCodeWithExpireTime rt 180).1
            (generateVerificationCodeWithExpireTime rt 180).2,
         .SendVerificationEmail user.Email (generateVerificationCodeWithExpireTime rt 180).1]) ∧
    (some CustomError.ErrSendingEmail ≠ some CustomError.ErrInternal ∧
      some CustomError.ErrSendingEmail ≠ none) := by
  refine ⟨?_, ?_, by decide⟩
  · intro err hashedPassword created mailErr hlookup hhash hcreate hmail
    simp [SignUpWithEmail, createNewUser, hlookup, hhash, hcreate, hmail]
  · intro user updated mailErr hfound hunverified hupdate hmail
    simp [SignUpWithEmail, updateExistingUser, hfound, hunverified, hupdate, hmail]

/-- C6 (witness): with the mail transport down, signing up the unknown address
`c@x.com` and signing up the unverified address `a@x.com` again both report
`SendingEmailFailed`. -/
theorem SignUpWithEmail_mail_failure_witness :
    (SignUpWithEmail { sampleService with mailService := mailDown } (sampleRuntime 5)
        ⟨"c@x.com", "pw"⟩ (World.init [pendingUser])).1 = ("", some .ErrSendingEmail) ∧
    (SignUpWithEmail { sampleService with mailService := mailDown } (sampleRuntime 5)
        ⟨"a@x.com", "pw"⟩ (World.init [pendingUser])).1 = ("", some .ErrSendingEmail) :=
  ⟨((SignUpWithEmail_mail_failure { sampleService with mailService := mailDown } (sampleRuntime 5)
      ⟨"c@x.com", "pw"⟩ (World.init [pendingUser])).1 gormErrRecordNotFound "hash:pw"
      [pendingUser,
        { ID := 2, Email := "c@x.com", Password := "hash:pw",
          VerificationCode := some "dead42", VerificationCodeExpireAt := some 180000000005 }]
      (.sentinel "smtp unavailable") (by decide) (by decide) (by decide) (by decide)).1,
   ((SignUpWithEmail_mail_failure { sampleService with mailService := mailDown } (sampleRuntime 5)
      ⟨"a@x.com", "pw"⟩ (World.init [pendingUser])).2.1 pendingUser
      [{ pendingUser with
          VerificationCode := some "dead42", VerificationCodeExpireAt := some 180000000005 }]
      (.sentinel "smtp unavailable") (by decide) (by decide) (by decide) (by decide)).1⟩

/-! ## Sign-in: token issuance and the refresh-token write -/

/-- The whole run of `SignInWithEmail` on the success path. -/
theorem SignInWithEmail_success_run {σ : Type} (s : AuthServiceImpl σ) (rt : Runtime)
    (input : SignInInput) (w : World σ) (user : User)
    (idToken accessToken refreshToken : String) (written : σ)
    (hfound : s.userRepo.GetUserByEmail w.store input.Email = .ok user)
    (hpassword : rt.VerifyPassword input.Password user.Password = true)
    (hverified : user.IsEmailVerified = true)
    (hid : s.tokenService.GenerateToken (idTokenInput user) = .ok idToken)
    (haccess : s.tokenService.GenerateToken (accessTokenInput user) = .ok accessToken)
    (hrefresh : s.tokenService.GenerateToken (refreshTokenInput user) = .ok refreshToken)
    (hwrite : s.userRepo.UpdateRefreshToken w.store user refreshToken = (none, written)) :
    SignInWithEmail s rt input w =
      (({ IdToken := idToken, AccessToken := accessToken, RefreshToken := refreshToken }, none),
        { store := written,
          calls := w.calls ++
            [.GetUserByEmail input.Email, .VerifyPassword input.Password user.Password,
             .GenerateToken (idTokenInput user), .GenerateToken (accessTokenInput user),
             .GenerateToken (refreshTokenInput user), .UpdateRefreshToken user refreshToken] }) := by
  simp [SignInWithEmail, generateTokens, hfound, hpassword, hverified, hid, haccess, hrefresh,
    hwrite, World.log]

/-- C7 (counterexample): for the verified user `b@x.com` with the correct
password, a token service that succeeds with the empty string on every request
and a store that accepts the write, `SignInWithEmail` returns no error and a
`Tokens` value whose three fields are empty and equal to each other. -/
theorem SignInWithEmail_tokens_counterexample :
    memRepo.GetUserByEmail [verifiedUser] "b@x.com" = .ok verifiedUser ∧
    verifiedUser.IsEmailVerified = true ∧
    (sampleRuntime 5).VerifyPassword "pw2" verifiedUser.Password = true ∧
    (tokensConstant "").GenerateToken (idTokenInput verifiedUser) = .ok "" ∧
    (tokensConstant "").GenerateToken (accessTokenInput verifiedUser) = .ok "" ∧
    (tokensConstant "").GenerateToken (refreshTokenInput verifiedUser) = .ok "" ∧
    (memRepo.UpdateRefreshToken [verifiedUser] verifiedUser "").1 = none ∧
    (SignInWithEmail { sampleService with tokenService := tokensConstant "" } (sampleRuntime 5)
        ⟨"b@x.com", "pw2"⟩ (World.init [verifiedUser])).1
      = ({ IdToken := "", AccessToken := "", RefreshToken := "" }, none) := by
  decide

/-- C7 (amended): for a verified user and a password that verifies against the
stored hash, when the token service succeeds on the three requests and the
store accepts the write, `SignInWithEmail` returns no error and a `Tokens`
value whose three fields are exactly the strings the token service returned
for the identity, access and refresh request (so they are non-empty and
pairwise distinct whenever those three answers are); the calls it adds to the
log are the lookup, the password check, the three token requests and one
`UpdateRefreshToken`, whose token is the returned `RefreshToken`; the store
is the one that write left. -/
theorem SignInWithEmail_success {σ : Type} (s : AuthServiceImpl σ) (rt : Runtime)
    (input : SignInInput) (w : World σ) (user : User)
    (idToken accessToken refreshToken : String) (written : σ)
    (hfound : s.userRepo.GetUserByEmail w.store input.Email = .ok user)
    (hpassword : rt.VerifyPassword input.Password user.Password = true)
    (hverified : user.IsEmailVerified = true)
    (hid : s.tokenService.GenerateToken (idTokenInput user) = .ok idToken)
    (haccess : s.tokenService.GenerateToken (accessTokenInput user) = .ok accessToken)
    (hrefresh : s.tokenService.GenerateToken (refreshTokenInput user) = .ok refreshToken)
    (hwrite : s.userRepo.UpdateRefreshToken w.store user refreshToken = (none, written)) :
    (SignInWithEmail s rt input w).1 =
      ({ IdToken := idToken, AccessToken := accessToken, RefreshToken := refreshToken }, none) ∧
    (SignInWithEmail s rt input w).2.store = written ∧
    (SignInWithEmail s rt input w).2.calls = w.calls ++
      [.GetUserByEmail input.Email, .VerifyPassword input.Password user.Password,
       .GenerateToken (idTokenInput user), .GenerateToken (accessTokenInput user),
       .GenerateToken (refreshTokenInput user),
       .UpdateRefreshToken user (SignInWithEmail s rt input w).1.1.RefreshToken] ∧
    ((idToken ≠ "" ∧ accessToken ≠ "" ∧ refreshToken ≠ "" ∧ idToken ≠ accessToken ∧
        idToken ≠ refreshToken ∧ accessToken ≠ refreshToken) →
      (SignInWithEmail s rt input w).1.1.IdToken ≠ "" ∧
      (SignInWithEmail s rt input w).1.1.AccessToken ≠ "" ∧
      (SignInWithEmail s rt input w).1.1.RefreshToken ≠ "" ∧
      (SignInWithEmail s rt input w).1.1.IdToken ≠ (SignInWithEmail s rt input w).1.1.AccessToken ∧
      (SignInWithEmail s rt input w).1.1.IdToken ≠ (SignInWithEmail s rt input w).1.1.RefreshToken ∧
      (SignInWithEmail s rt input w).1.1.AccessToken ≠
        (SignInWithEmail s rt input w).1.1.RefreshToken) := by
  rw [SignInWithEmail_success_run s rt input w user idToken accessToken refreshToken written
    hfound hpassword hverified hid haccess hrefresh hwrite]
  exact ⟨rfl, rfl, rfl, fun h => h⟩

/-- C7 (witness): the verified user `b@x.com` signs in with the correct password. -/
theorem SignInWithEmail_success_witness :
    (SignInWithEmail sampleService (sampleRuntime 5) ⟨"b@x.com", "pw2"⟩
        (World.init [verifiedUser])).1 =
      ({ IdToken := "id.jwt", AccessToken := "access.jwt", RefreshToken := "refresh.jwt" }, none) :=
  (SignInWithEmail_success sampleService (sampleRuntime 5) ⟨"b@x.com", "pw2"⟩
    (World.init [verifiedUser]) verifiedUser "id.jwt" "access.jwt" "refresh.jwt"
    [{ verifiedUser with RefreshToken := "refresh.jwt" }]
    (by decide) (by decide) (by decide) (by decide) (by decide) (by decide) (by decide)).1

/-- C8: for a verified user and a password that verifies, if the identity, the
access or the refresh token request fails, `SignInWithEmail` returns `Internal`
with the empty `Tokens` value and leaves the store as it was; the failing
request is the last call in the log, so no later token is requested and
`UpdateRefreshToken` is never called. -/
theorem SignInWithEmail_issuance_failure {σ : Type} (s : AuthServiceImpl σ) (rt : Runtime)
    (input : SignInInput) (w : World σ) (user : User)
    (hfound : s.userRepo.GetUserByEmail w.store input.Email = .ok user)
    (hpassword : rt.VerifyPassword input.Password user.Password = true)
    (hverified : user.IsEmailVerified = true) :
    (∀ e, s.tokenService.GenerateToken (idTokenInput user) = .error e →
      (SignInWithEmail s rt input w).1 = (({} : Tokens), some .ErrInternal) ∧
      (SignInWithEmail s rt input w).2.store = w.store ∧
      (SignInWithEmail s rt input w).2.calls = w.calls ++
        [.GetUserByEmail input.Email, .VerifyPassword input.Password user.Password,
         .GenerateToken (idTokenInput user)]) ∧
    (∀ idToken e, s.tokenService.GenerateToken (idTokenInput user) = .ok idToken →
      s.tokenService.GenerateToken (accessTokenInput user) = .error e →
      (SignInWithEmail s rt input w).1 = (({} : Tokens), some .ErrInternal) ∧
      (SignInWithEmail s rt input w).2.store = w.store ∧
      (SignInWithEmail s rt input w).2.calls = w.calls ++
        [.GetUserByEmail input.Email, .VerifyPassword input.Password user.Password,
         .GenerateToken (idTokenInput user), .GenerateToken (accessTokenInput user)]) ∧
    (∀ idToken accessToken e, s.tokenService.GenerateToken (idTokenInput user) = .ok idToken →
      s.tokenService.GenerateToken (accessTokenInput user) = .ok accessToken →
      s.tokenService.GenerateToken (refreshTokenInput user) = .error e →
      (SignInWithEmail s rt input w).1 = (({} : Tokens), some .ErrInternal) ∧
      (SignInWithEmail s rt input w).2.store = w.store ∧
      (SignInWithEmail s rt input w).2.calls = w.calls ++
        [.GetUserByEmail input.Email, .VerifyPassword input.Password user.Password,
         .GenerateToken (idTokenInput user), .GenerateToken (accessTokenInput user),
         .GenerateToken (refreshTokenInput user)]) := by
  refine ⟨?_, ?_, ?_⟩
  · intro e hid
    simp [SignInWithEmail, generateTokens, hfound, hpassword, hverified, hid]
  · intro idToken e hid haccess
    simp [SignInWithEmail, generateTokens, hfound, hpassword, hverified, hid, haccess]
  · intro idToken accessToken e hid haccess hrefresh
    simp [SignInWithEmail, generateTokens, hfound, hpassword, hverified, hid, haccess, hrefresh]

/-- C8 (witness): with a token service on which only the identity request
succeeds, the sign-in of `b@x.com` stops at the access-token request. -/
theorem SignInWithEmail_issuance_failure_witness :
    (SignInWithEmail { sampleService with tokenService := tokensOnly [.IdToken] } (sampleRuntime 5)
        ⟨"b@x.com", "pw2"⟩ (World.init [verifiedUser])).1 = (({} : Tokens), some .ErrInternal) :=
  ((SignInWithEmail_issuance_failure { sampleService with tokenService := tokensOnly [.IdToken] }
    (sampleRuntime 5) ⟨"b@x.com", "pw2"⟩ (World.init [verifiedUser]) verifiedUser
    (by decide) (by decide) (by decide)).2.1 "id.jwt" (.sentinel "signing failed")
    (by decide) (by decide)).1

/-- C9: when the three tokens were issued and `UpdateRefreshToken` fails,
`SignInWithEmail` returns `Internal` and a `Tokens` value with three empty
fields.  And for every run: a returned `Tokens` value other than the empty one
comes with no error, and the last call in the log is an `UpdateRefreshToken`
for the looked-up user with the returned refresh token, which the store
accepted. -/
theorem SignInWithEmail_refresh_write {σ : Type} (s : AuthServiceImpl σ) (rt : Runtime)
    (input : SignInInput) (w : World σ) :
    (∀ (user : User) (idToken accessToken refreshToken : String) (e : GoError) (left : σ),
      s.userRepo.GetUserByEmail w.store input.Email = .ok user →
      rt.VerifyPassword input.Password user.Password = true →
      user.IsEmailVerified = true →
      s.tokenService.GenerateToken (idTokenInput user) = .ok idToken →
      s.tokenService.GenerateToken (accessTokenInput user) = .ok accessToken →
      s.tokenService.GenerateToken (refreshTokenInput user) = .ok refreshToken →
      s.userRepo.UpdateRefreshToken w.store user refreshToken = (some e, left) →
      (SignInWithEmail s rt input w).1 =
        ({ IdToken := "", AccessToken := "", RefreshToken := "" }, some .ErrInternal)) ∧
    ((SignInWithEmail s rt input w).1.1 ≠ ({} : Tokens) →
      (SignInWithEmail s rt input w).1.2 = none ∧
      ∃ user, s.userRepo.GetUserByEmail w.store input.Email = .ok user ∧
        (s.userRepo.UpdateRefreshToken w.store user
          (SignInWithEmail s rt input w).1.1.RefreshToken).1 = none ∧
        (SignInWithEmail s rt input w).2.calls.getLast? =
          some (.UpdateRefreshToken user (SignInWithEmail s rt input w).1.1.RefreshToken)) := by
  refine ⟨?_, ?_⟩
  · intro user idToken accessToken refreshToken e left hfound hpassword hverified hid haccess
      hrefresh hwrite
    simp [SignInWithEmail, generateTokens, hfound, hpassword, hverified, hid, haccess, hrefresh,
      hwrite]
  · intro hne
    rcases hfound : s.userRepo.GetUserByEmail w.store input.Email with err | user
    · exfalso
      apply hne
      by_cases hnf : errorsIs err gormErrRecordNotFound = true <;>
        simp [SignInWithEmail, hfound, hnf]
    · by_cases hgate : rt.VerifyPassword input.Password user.Password = true ∧
          user.IsEmailVerified = true
      · obtain ⟨hpassword, hverified⟩ := hgate
        rcases hid : s.tokenService.GenerateToken (idTokenInput user) with e | idToken
        · exact absurd (by simp [SignInWithEmail, generateTokens, hfound, hpassword, hverified,
            hid]) hne
        rcases haccess : s.tokenService.GenerateToken (accessTokenInput user) with e | accessToken
        · exact absurd (by simp [SignInWithEmail, generateTokens, hfound, hpassword, hverified,
            hid, haccess]) hne
        rcases hrefresh : s.tokenService.GenerateToken (refreshTokenInput user)
          with e | refreshToken
        · exact absurd (by simp [SignInWithEmail, generateTokens, hfound, hpassword, hverified,
            hid, haccess, hrefresh]) hne
        rcases hwrite : s.userRepo.UpdateRefreshToken w.store user refreshToken with ⟨e, left⟩
        cases e with
        | some e =>
          exact absurd (by simp [SignInWithEmail, generateTokens, hfound, hpassword, hverified,
            hid, haccess, hrefresh, hwrite]) hne
        | none =>
          have hrun := SignInWithEmail_success_run s rt input w user idToken accessToken
            refreshToken left hfound hpassword hverified hid haccess hrefresh hwrite
          rw [hrun]
          exact ⟨rfl, user, rfl, by simp [hwrite], by simp⟩
      · exfalso
        apply hne
        have hgate2 : rt.VerifyPassword input.Password user.Password = false ∨
            user.IsEmailVerified = false := by
          by_cases hp : rt.VerifyPassword input.Password user.Password = true
          · right
            by_cases hv : user.IsEmailVerified = true
            · exact absurd ⟨hp, hv⟩ hgate
            · simpa using hv
          · left
            simpa using hp
        rcases hgate2 with hp | hv
        · simp [SignInWithEmail, hfound, hp]
        · simp [SignInWithEmail, hfound, hv]

/-- C9 (witness): with a store that rejects every write, the sign-in of the
verified user `b@x.com` returns `Internal` and no token. -/
theorem SignInWithEmail_refresh_write_witness :
    (SignInWithEmail { sampleService with userRepo := memRepoWriteFailing } (sampleRuntime 5)
        ⟨"b@x.com", "pw2"⟩ (World.init [verifiedUser])).1 =
      ({ IdToken := "", AccessToken := "", RefreshToken := "" }, some .ErrInternal) :=
  (SignInWithEmail_refresh_write { sampleService with userRepo := memRepoWriteFailing }
    (sampleRuntime 5) ⟨"b@x.com", "pw2"⟩ (World.init [verifiedUser])).1
    verifiedUser "id.jwt" "access.jwt" "refresh.jwt" (.sentinel "write failed") [verifiedUser]
    (by decide) (by decide) (by decide) (by decide) (by decide) (by decide) (by decide)

/-- C10: when the lookup of `SignInWithEmail` returns an error, the result is
`InvalidCredentials` if `errors.Is` finds the not-found error in it and
`Internal` otherwise; in both cases the `Tokens` value is empty, the store is
as it was and the lookup is the only call added to the log (no hasher call, no
token request, no store write). -/
theorem SignInWithEmail_lookup_error {σ : Type} (s : AuthServiceImpl σ) (rt : Runtime)
    (input : SignInInput) (w : World σ) (err : GoError)
    (hlookup : s.userRepo.GetUserByEmail w.store input.Email = .error err) :
    (errorsIs err gormErrRecordNotFound = true →
      (SignInWithEmail s rt input w).1 = (({} : Tokens), some .ErrInvalidCredentials)) ∧
    (errorsIs err gormErrRecordNotFound = false →
      (SignInWithEmail s rt input w).1 = (({} : Tokens), some .ErrInternal)) ∧
    (SignInWithEmail s rt input w).2.store = w.store ∧
    (SignInWithEmail s rt input w).2.calls = w.calls ++ [.GetUserByEmail input.Email] := by
  cases hnf : errorsIs err gormErrRecordNotFound <;>
    simp [SignInWithEmail, hlookup, hnf]

/-- C10 (witness): a lookup error that wraps the not-found error is reported as
`InvalidCredentials`, and a lookup error that does not is reported as `Internal`. -/
theorem SignInWithEmail_lookup_error_witness :
    (SignInWithEmail
        { sampleService with
          userRepo := memRepoLookupFailing (.wrap "get user" gormErrRecordNotFound) }
        (sampleRuntime 5) ⟨"b@x.com", "pw2"⟩ (World.init [verifiedUser])).1
      = (({} : Tokens), some .ErrInvalidCredentials) ∧
    (SignInWithEmail
        { sampleService with userRepo := memRepoLookupFailing (.sentinel "connection refused") }
        (sampleRuntime 5) ⟨"b@x.com", "pw2"⟩ (World.init [verifiedUser])).1
      = (({} : Tokens), some .ErrInternal) :=
  ⟨(SignInWithEmail_lookup_error
      { sampleService with
        userRepo := memRepoLookupFailing (.wrap "get user" gormErrRecordNotFound) }
      (sampleRuntime 5) ⟨"b@x.com", "pw2"⟩ (World.init [verifiedUser])
      (.wrap "get user" gormErrRecordNotFound) (by decide)).1 (by decide),
   (SignInWithEmail_lookup_error
      { sampleService with userRepo := memRepoLookupFailing (.sentinel "connection refused") }
      (sampleRuntime 5) ⟨"b@x.com", "pw2"⟩ (World.init [verifiedUser])
      (.sentinel "connection refused") (by decide)).2.1 (by decide)⟩

/-! ## E-mail code verification: the commit and the absent pending code -/

/-- The in-memory lookup finds the first row with the e-mail. -/
theorem memRepo_GetUserByEmail_ok (store : List User) (email : String) (user : User) :
    memRepo.GetUserByEmail store email = .ok user ↔
      store.find? (fun u => u.Email == email) = some user := by
  simp only [memRepo]
  cases h : store.find? (fun u => u.Email == email) <;> simp

/-- A row-wise rewrite that keeps the e-mail of every row rewrites the row a lookup finds. -/
theorem memRepo_GetUserByEmail_map (store : List User) (email : String) (user : User)
    (f : User → User) (hf : ∀ u, (f u).Email = u.Email)
    (hfound : memRepo.GetUserByEmail store email = .ok user) :
    memRepo.GetUserByEmail (store.map f) email = .ok (f user) := by
  rw [memRepo_GetUserByEmail_ok] at hfound ⊢
  rw [List.find?_map]
  have hcomp : ((fun u : User => u.Email == email) ∘ f) = fun u => u.Email == email := by
    funext u
    simp [Function.comp, hf u]
  rw [hcomp, hfound]
  rfl

/-- C11: on the in-memory store, after a `VerifyEmailCode` that returned
success (the store marked the user verified and cleared the pending code), a
second `VerifyEmailCode` with the same e-mail and code, at any clock reading,
does not return `InvalidVerificationCode`: it panics on the nil pending code. -/
theorem VerifyEmailCode_second_call_panics (mail : MailService) (tokens : TokenService)
    (rt rtSecond : Runtime) (input : VerifyEmailCodeInput) (w : World (List User))
    (hfirst : (VerifyEmailCode ⟨memRepo, mail, tokens⟩ rt input w).1 = .returned none) :
    (VerifyEmailCode ⟨memRepo, mail, tokens⟩ rtSecond input
      (VerifyEmailCode ⟨memRepo, mail, tokens⟩ rt input w).2).1 = .panicked := by
  rcases hfound : memRepo.GetUserByEmail w.store input.Email with err | user
  · simp [VerifyEmailCode, hfound] at hfirst
  rcases hcode : user.VerificationCode with _ | storedCode
  · simp [VerifyEmailCode, hfound, hcode] at hfirst
  by_cases hc : storedCode = input.Code
  swap
  · simp [VerifyEmailCode, hfound, hcode, hc] at hfirst
  rcases hexp : user.VerificationCodeExpireAt with _ | expireAt
  · simp [VerifyEmailCode, hfound, hcode, hc, hexp] at hfirst
  by_cases ht : rt.timeNow.After expireAt = true
  · simp [VerifyEmailCode, hfound, hcode, hc, hexp, ht] at hfirst
  have hstore : (VerifyEmailCode ⟨memRepo, mail, tokens⟩ rt input w).2.store =
      w.store.map (fun u =>
        if u.Email == user.Email then
          { u with EmailVerified := true, VerificationCode := none,
                   VerificationCodeExpireAt := none }
        else u) := by
    simp only [VerifyEmailCode, World.log_store, hfound, hcode, hc, hexp]
    simp [ht, memRepo]
  have hlookup := memRepo_GetUserByEmail_map w.store input.Email user
    (fun u =>
      if u.Email == user.Email then
        { u with EmailVerified := true, VerificationCode := none,
                 VerificationCodeExpireAt := none }
      else u)
    (by intro u; by_cases h : u.Email == user.Email <;> simp [h]) hfound
  rw [← hstore] at hlookup
  simp only [VerifyEmailCode, World.log_store] at hlookup ⊢
  rw [hlookup]
  simp

/-- C11 (witness): the pending code `c0ffee` verifies at instant 499; the same
call repeated at instant 499 on the store this leaves panics. -/
theorem VerifyEmailCode_second_call_panics_witness :
    (VerifyEmailCode ⟨memRepo, mailOk, tokensByKind⟩ (sampleRuntime 499) ⟨"a@x.com", "c0ffee"⟩
        (World.init [pendingUser])).1 = .returned none ∧
    (VerifyEmailCode ⟨memRepo, mailOk, tokensByKind⟩ (sampleRuntime 499) ⟨"a@x.com", "c0ffee"⟩
      (VerifyEmailCode ⟨memRepo, mailOk, tokensByKind⟩ (sampleRuntime 499) ⟨"a@x.com", "c0ffee"⟩
        (World.init [pendingUser])).2).1 = .panicked :=
  ⟨by decide,
   VerifyEmailCode_second_call_panics mailOk tokensByKind (sampleRuntime 499) (sampleRuntime 499)
    ⟨"a@x.com", "c0ffee"⟩ (World.init [pendingUser]) (by decide)⟩

/-- C13: for a found user with a pending code, when the supplied code matches,
the code is not expired and the store's `VerifyUserEmail` fails,
`VerifyEmailCode` returns `InvalidVerificationCode`, which is not `Internal`,
and the commit is the one store write in the log; when the code does not match,
or matches and is expired, the lookup is the only call added to the log
(`VerifyUserEmail` is not called) and the store is as it was. -/
theorem VerifyEmailCode_commit {σ : Type} (s : AuthServiceImpl σ) (rt : Runtime)
    (input : VerifyEmailCodeInput) (w : World σ) (user : User) (storedCode : String)
    (hfound : s.userRepo.GetUserByEmail w.store input.Email = .ok user)
    (hcode : user.VerificationCode = some storedCode) :
    (∀ (expireAt : Time) (e : GoError) (left : σ),
      user.VerificationCodeExpireAt = some expireAt →
      storedCode = input.Code → rt.timeNow ≤ expireAt →
      s.userRepo.VerifyUserEmail w.store user = (some e, left) →
      (VerifyEmailCode s rt input w).1 = .returned (some .ErrInvalidVerificationCode) ∧
      (VerifyEmailCode s rt input w).2.store = left ∧
      (VerifyEmailCode s rt input w).2.calls =
        w.calls ++ [.GetUserByEmail input.Email, .VerifyUserEmail user]) ∧
    (storedCode ≠ input.Code →
      (VerifyEmailCode s rt input w).1 = .returned (some .ErrInvalidVerificationCode) ∧
      (VerifyEmailCode s rt input w).2.store = w.store ∧
      (VerifyEmailCode s rt input w).2.calls = w.calls ++ [.GetUserByEmail input.Email]) ∧
    (∀ (expireAt : Time),
      user.VerificationCodeExpireAt = some expireAt →
      storedCode = input.Code → expireAt < rt.timeNow →
      (VerifyEmailCode s rt input w).1 = .returned (some .ErrInvalidVerificationCode) ∧
      (VerifyEmailCode s rt input w).2.store = w.store ∧
      (VerifyEmailCode s rt input w).2.calls = w.calls ++ [.GetUserByEmail input.Email]) ∧
    some CustomError.ErrInvalidVerificationCode ≠ some CustomError.ErrInternal := by
  refine ⟨?_, ?_, ?_, by decide⟩
  · intro expireAt e left hexp hmatch hnotafter hcommit
    have ht : ¬ expireAt < rt.timeNow := not_lt.mpr hnotafter
    simp [VerifyEmailCode, hfound, hcode, hexp, hmatch, Time.After, ht, hcommit]
  · intro hmismatch
    simp [VerifyEmailCode, hfound, hcode, hmismatch]
  · intro expireAt hexp hmatch hexpired
    simp [VerifyEmailCode, hfound, hcode, hexp, hmatch, Time.After, hexpired]

/-- C13 (witness): with a store that rejects every write, the matching code
`c0ffee` presented at instant 499 is answered `InvalidVerificationCode`. -/
theorem VerifyEmailCode_commit_witness :
    (VerifyEmailCode { sampleService with userRepo := memRepoWriteFailing } (sampleRuntime 499)
        ⟨"a@x.com", "c0ffee"⟩ (World.init [pendingUser])).1
      = .returned (some .ErrInvalidVerificationCode) :=
  ((VerifyEmailCode_commit { sampleService with userRepo := memRepoWriteFailing }
    (sampleRuntime 499) ⟨"a@x.com", "c0ffee"⟩ (World.init [pendingUser]) pendingUser "c0ffee"
    (by decide) (by decide)).1 500 (.sentinel "write failed") [pendingUser]
    (by decide) (by decide) (by decide) (by decide)).1

/-- C19: for a found user whose `VerificationCode` is nil, `VerifyEmailCode`
panics at the comparison of line 85; for a found user whose code is present
and equal to the supplied one and whose `VerificationCodeExpireAt` is nil, it
panics at the expiry check of line 89.  In both cases the lookup is the only
call made and nothing is returned. -/
theorem VerifyEmailCode_nil_dereference {σ : Type} (s : AuthServiceImpl σ) (rt : Runtime)
    (input : VerifyEmailCodeInput) (w : World σ) (user : User)
    (hfound : s.userRepo.GetUserByEmail w.store input.Email = .ok user) :
    (user.VerificationCode = none →
      VerifyEmailCode s rt input w = (.panicked, w.log (.GetUserByEmail input.Email))) ∧
    (user.VerificationCode = some input.Code → user.VerificationCodeExpireAt = none →
      VerifyEmailCode s rt input w = (.panicked, w.log (.GetUserByEmail input.Email))) := by
  refine ⟨?_, ?_⟩
  · intro hcode
    simp [VerifyEmailCode, hfound, hcode]
  · intro hcode hexp
    simp [VerifyEmailCode, hfound, hcode, hexp]

/-- C19 (witness): verifying a code for the verified account `b@x.com`, whose
pending code was cleared, panics. -/
theorem VerifyEmailCode_nil_dereference_witness :
    VerifyEmailCode sampleService (sampleRuntime 5) ⟨"b@x.com", "c0ffee"⟩
        (World.init [verifiedUser])
      = (.panicked, (World.init [verifiedUser]).log (.GetUserByEmail "b@x.com")) :=
  (VerifyEmailCode_nil_dereference sampleService (sampleRuntime 5) ⟨"b@x.com", "c0ffee"⟩
    (World.init [verifiedUser]) verifiedUser (by decide)).1 (by decide)

/-! ## Sign-up: lookup errors, hashing and store failures -/

/-- C12: when the lookup of `SignUpWithEmail` fails with an error that is not
the not-found error, the run goes on as for an unknown e-mail: with hashing,
`CreateUnverifiedUser` and the mail service succeeding it creates a user, sends
a notification and returns the success message with no error. -/
theorem SignUpWithEmail_other_lookup_error {σ : Type} (s : AuthServiceImpl σ) (rt : Runtime)
    (input : SignUpInput) (w : World σ) (err : GoError) (hashedPassword : String) (created : σ)
    (hlookup : s.userRepo.GetUserByEmail w.store input.Email = .error err)
    (hother : errorsIs err gormErrRecordNotFound = false)
    (hhash : rt.HashPassword input.Password = .ok hashedPassword)
    (hcreate : s.userRepo.CreateUnverifiedUser w.store
        { Email := input.Email, Password := hashedPassword }
        (generateVerificationCodeWithExpireTime rt 180).1
        (generateVerificationCodeWithExpireTime rt 180).2 = (none, created))
    (hmail : s.mailService.SendVerificationEmail input.Email
        (generateVerificationCodeWithExpireTime rt 180).1 = none) :
    errorsIs err gormErrRecordNotFound = false ∧
    (SignUpWithEmail s rt input w).1 = ("Verification code was sent to user email", none) ∧
    (SignUpWithEmail s rt input w).2.store = created ∧
    (SignUpWithEmail s rt input w).2.calls = w.calls ++
      [.GetUserByEmail input.Email, .HashPassword input.Password,
       .CreateUnverifiedUser { Email := input.Email, Password := hashedPassword }
          (generateVerificationCodeWithExpireTime rt 180).1
          (generateVerificationCodeWithExpireTime rt 180).2,
       .SendVerificationEmail input.Email (generateVerificationCodeWithExpireTime rt 180).1] := by
  refine ⟨hother, ?_, ?_, ?_⟩ <;>
    simp [SignUpWithEmail, createNewUser, hlookup, hhash, hcreate, hmail]

/-- C12 (witness): the store holds the verified account `b@x.com` and the
lookup fails with `connection refused`; signing up `b@x.com` appends a second,
unverified row with that e-mail and reports success. -/
theorem SignUpWithEmail_other_lookup_error_witness :
    (SignUpWithEmail
        { sampleService with userRepo := memRepoLookupFailing (.sentinel "connection refused") }
        (sampleRuntime 5) ⟨"b@x.com", "pw"⟩ (World.init [verifiedUser])).1
      = ("Verification code was sent to user email", none) ∧
    (SignUpWithEmail
        { sampleService with userRepo := memRepoLookupFailing (.sentinel "connection refused") }
        (sampleRuntime 5) ⟨"b@x.com", "pw"⟩ (World.init [verifiedUser])).2.store
      = [verifiedUser,
          { ID := 2, Email := "b@x.com", Password := "hash:pw",
            VerificationCode := some "dead42", VerificationCodeExpireAt := some 180000000005 }] :=
  ⟨(SignUpWithEmail_other_lookup_error
      { sampleService with userRepo := memRepoLookupFailing (.sentinel "connection refused") }
      (sampleRuntime 5) ⟨"b@x.com", "pw"⟩ (World.init [verifiedUser])
      (.sentinel "connection refused") "hash:pw"
      [verifiedUser,
        { ID := 2, Email := "b@x.com", Password := "hash:pw",
          VerificationCode := some "dead42", VerificationCodeExpireAt := some 180000000005 }]
      (by decide) (by decide) (by decide) (by decide) (by decide)).2.1,
   (SignUpWithEmail_other_lookup_error
      { sampleService with userRepo := memRepoLookupFailing (.sentinel "connection refused") }
      (sampleRuntime 5) ⟨"b@x.com", "pw"⟩ (World.init [verifiedUser])
      (.sentinel "connection refused") "hash:pw"
      [verifiedUser,
        { ID := 2, Email := "b@x.com", Password := "hash:pw",
          VerificationCode := some "dead42", VerificationCodeExpireAt := some 180000000005 }]
      (by decide) (by decide) (by decide) (by decide) (by decide)).2.2.1⟩

/-- C14: in the new-user path the record handed to `CreateUnverifiedUser` has
the input e-mail and, as its password, the string the hasher returned for the
supplied password; a failure before the notification is reported as `Internal`
with the empty message and no `SendVerificationEmail` call: when hashing fails
the log ends with the hasher call and the store is as it was, when
`CreateUnverifiedUser` fails the log ends with it, and in the existing-user
path when `UpdateVerificationCode` fails the log ends with it. -/
theorem SignUpWithEmail_failure_before_notification {σ : Type} (s : AuthServiceImpl σ)
    (rt : Runtime) (input : SignUpInput) (w : World σ) :
    (∀ (err : GoError) (hashedPassword : String),
      s.userRepo.GetUserByEmail w.store input.Email = .error err →
      rt.HashPassword input.Password = .ok hashedPassword →
      ∃ rest, (SignUpWithEmail s rt input w).2.calls = w.calls ++
        [.GetUserByEmail input.Email, .HashPassword input.Password,
         .CreateUnverifiedUser
            { Email := input.Email, Password := hashedPassword, EmailVerified := false }
            (generateVerificationCodeWithExpireTime rt 180).1
            (generateVerificationCodeWithExpireTime rt 180).2] ++ rest) ∧
    (∀ (err e : GoError),
      s.userRepo.GetUserByEmail w.store input.Email = .error err →
      rt.HashPassword input.Password = .error e →
      (SignUpWithEmail s rt input w).1 = ("", some .ErrInternal) ∧
      (SignUpWithEmail s rt input w).2.store = w.store ∧
      (SignUpWithEmail s rt input w).2.calls = w.calls ++
        [.GetUserByEmail input.Email, .HashPassword input.Password]) ∧
    (∀ (err e : GoError) (hashedPassword : String) (left : σ),
      s.userRepo.GetUserByEmail w.store input.Email = .error err →
      rt.HashPassword input.Password = .ok hashedPassword →
      s.userRepo.CreateUnverifiedUser w.store { Email := input.Email, Password := hashedPassword }
        (generateVerificationCodeWithExpireTime rt 180).1
        (generateVerificationCodeWithExpireTime rt 180).2 = (some e, left) →
      (SignUpWithEmail s rt input w).1 = ("", some .ErrInternal) ∧
      (SignUpWithEmail s rt input w).2.calls = w.calls ++
        [.GetUserByEmail input.Email, .HashPassword input.Password,
         .CreateUnverifiedUser { Email := input.Email, Password := hashedPassword }
            (generateVerificationCodeWithExpireTime rt 180).1
            (generateVerificationCodeWithExpireTime rt 180).2]) ∧
    (∀ (user : User) (e : GoError) (left : σ),
      s.userRepo.GetUserByEmail w.store input.Email = .ok user →
      user.IsEmailVerified = false →
      s.userRepo.UpdateVerificationCode w.store user
        (generateVerificationCodeWithExpireTime rt 180).1
        (generateVerificationCodeWithExpireTime rt 180).2 = (some e, left) →
      (SignUpWithEmail s rt input w).1 = ("", some .ErrInternal) ∧
      (SignUpWithEmail s rt input w).2.calls = w.calls ++
        [.GetUserByEmail input.Email,
         .UpdateVerificationCode user (generateVerificationCodeWithExpireTime rt 180).1
            (generateVerificationCodeWithExpireTime rt 180).2]) := by
  refine ⟨?_, ?_, ?_, ?_⟩
  · intro err hashedPassword hlookup hhash
    rcases hcreate : s.userRepo.CreateUnverifiedUser w.store
        { Email := input.Email, Password := hashedPassword }
        (generateVerificationCodeWithExpireTime rt 180).1
        (generateVerificationCodeWithExpireTime rt 180).2 with ⟨e, left⟩
    cases e with
    | some e =>
      exact ⟨[], by simp [SignUpWithEmail, createNewUser, hlookup, hhash, hcreate]⟩
    | none =>
      refine ⟨[.SendVerificationEmail input.Email
        (generateVerificationCodeWithExpireTime rt 180).1], ?_⟩
      cases hmail : s.mailService.SendVerificationEmail input.Email
          (generateVerificationCodeWithExpireTime rt 180).1 <;>
        simp [SignUpWithEmail, createNewUser, hlookup, hhash, hcreate, hmail]
  · intro err e hlookup hhash
    simp [SignUpWithEmail, createNewUser, hlookup, hhash]
  · intro err e hashedPassword left hlookup hhash hcreate
    simp [SignUpWithEmail, createNewUser, hlookup, hhash, hcreate]
  · intro user e left hfound hunverified hupdate
    simp [SignUpWithEmail, updateExistingUser, hfound, hunverified, hupdate]

/-- C14 (witness): with a store that rejects every write, signing up the unknown
address `c@x.com` and signing up the unverified address `a@x.com` again are
both reported as `Internal`. -/
theorem SignUpWithEmail_failure_before_notification_witness :
    (SignUpWithEmail { sampleService with userRepo := memRepoWriteFailing } (sampleRuntime 5)
        ⟨"c@x.com", "pw"⟩ (World.init [pendingUser])).1 = ("", some .ErrInternal) ∧
    (SignUpWithEmail { sampleService with userRepo := memRepoWriteFailing } (sampleRuntime 5)
        ⟨"a@x.com", "pw"⟩ (World.init [pendingUser])).1 = ("", some .ErrInternal) :=
  ⟨((SignUpWithEmail_failure_before_notification
      { sampleService with userRepo := memRepoWriteFailing } (sampleRuntime 5)
      ⟨"c@x.com", "pw"⟩ (World.init [pendingUser])).2.2.1 gormErrRecordNotFound
      (.sentinel "write failed") "hash:pw" [pendingUser]
      (by decide) (by decide) (by decide)).1,
   ((SignUpWithEmail_failure_before_notification
      { sampleService with userRepo := memRepoWriteFailing } (sampleRuntime 5)
      ⟨"a@x.com", "pw"⟩ (World.init [pendingUser])).2.2.2 pendingUser
      (.sentinel "write failed") [pendingUser]
      (by decide) (by decide) (by decide)).1⟩

/-! ## Token requests -/

/-- C15: when the token service succeeds, `generateTokens` adds exactly three
token requests to the log, each with the user's id and e-mail, of kinds
identity, access and refresh in this order and with lifetimes 259200 s,
259200 s and 604800 s, and returns the three answers in the same order;
the refresh lifetime is at least the access lifetime, which equals the identity
lifetime.  In every run the requests added are a non-empty initial part of
these three and the store is untouched. -/
theorem generateTokens_requests {σ : Type} (s : AuthServiceImpl σ) (user : User) (w : World σ) :
    (∀ idToken accessToken refreshToken : String,
      s.tokenService.GenerateToken
        { Id := user.IDAsString, Email := user.Email, ExpirationInSeconds := 259200,
          TokenType := .IdToken } = .ok idToken →
      s.tokenService.GenerateToken
        { Id := user.IDAsString, Email := user.Email, ExpirationInSeconds := 259200,
          TokenType := .AccessToken } = .ok accessToken →
      s.tokenService.GenerateToken
        { Id := user.IDAsString, Email := user.Email, ExpirationInSeconds := 604800,
          TokenType := .RefreshToken } = .ok refreshToken →
      (generateTokens s user w).1 = .ok (idToken, accessToken, refreshToken) ∧
      (generateTokens s user w).2.calls = w.calls ++
        [.GenerateToken
            { Id := user.IDAsString, Email := user.Email, ExpirationInSeconds := 259200,
              TokenType := .IdToken },
         .GenerateToken
            { Id := user.IDAsString, Email := user.Email, ExpirationInSeconds := 259200,
              TokenType := .AccessToken },
         .GenerateToken
            { Id := user.IDAsString, Email := user.Email, ExpirationInSeconds := 604800,
              TokenType := .RefreshToken }]) ∧
    (∃ n, 1 ≤ n ∧ n ≤ 3 ∧
      (generateTokens s user w).2.calls = w.calls ++
        ([Call.GenerateToken (idTokenInput user), Call.GenerateToken (accessTokenInput user),
          Call.GenerateToken (refreshTokenInput user)].take n)) ∧
    (generateTokens s user w).2.store = w.store ∧
    ((accessTokenInput user).ExpirationInSeconds ≤ (refreshTokenInput user).ExpirationInSeconds ∧
      (accessTokenInput user).ExpirationInSeconds = (idTokenInput user).ExpirationInSeconds) := by
  have hidInput : idTokenInput user =
      { Id := user.IDAsString, Email := user.Email, ExpirationInSeconds := 259200,
        TokenType := .IdToken } := rfl
  have haccessInput : accessTokenInput user =
      { Id := user.IDAsString, Email := user.Email, ExpirationInSeconds := 259200,
        TokenType := .AccessToken } := rfl
  have hrefreshInput : refreshTokenInput user =
      { Id := user.IDAsString, Email := user.Email, ExpirationInSeconds := 604800,
        TokenType := .RefreshToken } := rfl
  refine ⟨?_, ?_, ?_, by simp [accessTokenInput, refreshTokenInput], rfl⟩
  · intro idToken accessToken refreshToken hid haccess hrefresh
    rw [← hidInput] at hid
    rw [← haccessInput] at haccess
    rw [← hrefreshInput] at hrefresh
    rw [← hidInput, ← haccessInput, ← hrefreshInput]
    simp [generateTokens, hid, haccess, hrefresh]
  · rcases hid : s.tokenService.GenerateToken (idTokenInput user) with e | idToken
    · exact ⟨1, by decide, by decide, by simp [generateTokens, hid]⟩
    rcases haccess : s.tokenService.GenerateToken (accessTokenInput user) with e | accessToken
    · exact ⟨2, by decide, by decide, by simp [generateTokens, hid, haccess]⟩
    rcases hrefresh : s.tokenService.GenerateToken (refreshTokenInput user)
      with e | refreshToken <;>
    exact ⟨3, by decide, by decide, by simp [generateTokens, hid, haccess, hrefresh]⟩
  · rcases hid : s.tokenService.GenerateToken (idTokenInput user) with e | idToken
    · simp [generateTokens, hid]
    rcases haccess : s.tokenService.GenerateToken (accessTokenInput user) with e | accessToken
    · simp [generateTokens, hid, haccess]
    rcases hrefresh : s.tokenService.GenerateToken (refreshTokenInput user)
      with e | refreshToken <;>
    simp [generateTokens, hid, haccess, hrefresh]

/-- C15 (witness): the three requests for the verified account `b@x.com`, whose
id renders as `2`. -/
theorem generateTokens_requests_witness :
    (generateTokens sampleService verifiedUser (World.init [verifiedUser])).1
      = .ok ("id.jwt", "access.jwt", "refresh.jwt") ∧
    (generateTokens sampleService verifiedUser (World.init [verifiedUser])).2.calls = [] ++
      [.GenerateToken
          { Id := "2", Email := "b@x.com", ExpirationInSeconds := 259200, TokenType := .IdToken },
       .GenerateToken
          { Id := "2", Email := "b@x.com", ExpirationInSeconds := 259200,
            TokenType := .AccessToken },
       .GenerateToken
          { Id := "2", Email := "b@x.com", ExpirationInSeconds := 604800,
            TokenType := .RefreshToken }] :=
  (generateTokens_requests sampleService verifiedUser (World.init [verifiedUser])).1
    "id.jwt" "access.jwt" "refresh.jwt" (by decide) (by decide) (by decide)

/-! ## The verification-code generator -/

/-- A value in the range of `int64` is left as it is by the wrap-around. -/
theorem wrapInt64_of_range (x : Int) (hlo : -(2 ^ 63) ≤ x) (hhi : x < 2 ^ 63) :
    wrapInt64 x = x := by
  unfold wrapInt64
  omega

/-- Every entry of `hextable` reached with an index below 16 is one of its characters. -/
theorem hextable_getD_mem : ∀ i, i < 16 → hextable.getD i '0' ∈ hextable := by
  decide

/-- The digit at position `i` of `hextable` has value `i`. -/
theorem hexDigitValue_getD : ∀ i, i < 16 → hexDigitValue (hextable.getD i '0') = i := by
  decide

/-- Every character of a hex encoding is one of `0-9a-f`. -/
theorem hexEncodeToString_chars (src : List Nat) :
    ∀ c ∈ (hexEncodeToString src).data, c ∈ hextable := by
  intro c hc
  simp only [hexEncodeToString, List.mem_flatMap, List.mem_cons, List.mem_singleton,
    List.not_mem_nil, or_false] at hc
  obtain ⟨v, _, hv⟩ := hc
  rcases hv with hv | hv
  · rw [hv]
    exact hextable_getD_mem _ (by omega)
  · rw [hv]
    exact hextable_getD_mem _ (by omega)

/-- The encoding of a non-empty slice starts with the two digits of its first byte. -/
theorem hexEncodeToString_cons (v : Nat) (rest : List Nat) :
    (hexEncodeToString (v :: rest)).data =
      hextable.getD (v % 256 / 16) '0' :: hextable.getD (v % 256 % 16) '0' ::
        (hexEncodeToString rest).data := by
  simp [hexEncodeToString]

/-- Reading a hex encoding back gives the bytes that were encoded. -/
theorem hexDecode_hexEncodeToString (src : List Nat) :
    hexDecode (hexEncodeToString src).data = src.map fun v => v % 256 := by
  induction src with
  | nil => rfl
  | cons v rest ih =>
    rw [hexEncodeToString_cons, hexDecode, ih, hexDigitValue_getD _ (by omega),
      hexDigitValue_getD _ (by omega), List.map_cons]
    congr 1
    omega

/-- C16 (counterexample): with the argument 9223372037 (a value of the 64-bit
`uint` parameter) at clock reading 5, the product with `time.Second` wraps
around in `int64`: the expiry is not the clock reading plus 9223372037 seconds,
it lies before the clock reading. -/
theorem generateVerificationCodeWithExpireTime_overflow_counterexample :
    (generateVerificationCodeWithExpireTime (sampleRuntime 5) 9223372037).2 ≠
      (sampleRuntime 5).timeNow + 9223372037 * Second ∧
    (generateVerificationCodeWithExpireTime (sampleRuntime 5) 9223372037).2 <
      (sampleRuntime 5).timeNow := by
  decide

/-- C16 (amended): for every argument `ttl` whose count of nanoseconds fits
`int64` (`ttl * 10^9 < 2^63`) and every three bytes drawn, the generator
returns the hex encoding of those bytes, which reads back as those bytes, has
exactly 6 characters, all from `0-9a-f`, and an expiry equal to the clock
reading plus `ttl` seconds; both sign-up paths hand the store the code
generated with the argument 180 and the expiry 180 seconds after the clock
reading. -/
theorem generateVerificationCodeWithExpireTime_result (rt : Runtime) (ttl : Nat)
    (hrange : ttl * 1000000000 < 2 ^ 63) :
    (generateVerificationCodeWithExpireTime rt ttl).1 =
      hexEncodeToString [rt.randByte 0 % 256, rt.randByte 1 % 256, rt.randByte 2 % 256] ∧
    hexDecode (generateVerificationCodeWithExpireTime rt ttl).1.data =
      [rt.randByte 0 % 256, rt.randByte 1 % 256, rt.randByte 2 % 256] ∧
    (generateVerificationCodeWithExpireTime rt ttl).1.length = 6 ∧
    (∀ c ∈ (generateVerificationCodeWithExpireTime rt ttl).1.data, c ∈ hextable) ∧
    (generateVerificationCodeWithExpireTime rt ttl).2 = rt.timeNow + (ttl : Int) * Second ∧
    (∀ (σ : Type) (s : AuthServiceImpl σ) (user : User) (w : World σ),
      user.IsEmailVerified = false →
      ∃ rest, (updateExistingUser s rt user w).2.calls = w.calls ++
        [.UpdateVerificationCode user (generateVerificationCodeWithExpireTime rt 180).1
          (rt.timeNow + 180 * Second)] ++ rest) ∧
    (∀ (σ : Type) (s : AuthServiceImpl σ) (email password hashedPassword : String) (w : World σ),
      rt.HashPassword password = .ok hashedPassword →
      ∃ rest, (createNewUser s rt email password w).2.calls = w.calls ++
        [.HashPassword password,
         .CreateUnverifiedUser { Email := email, Password := hashedPassword }
          (generateVerificationCodeWithExpireTime rt 180).1 (rt.timeNow + 180 * Second)]
        ++ rest) := by
  have hbytes : randRead rt 3 =
      [rt.randByte 0 % 256, rt.randByte 1 % 256, rt.randByte 2 % 256] := by
    simp [randRead, List.range_succ]
  have hcode : (generateVerificationCodeWithExpireTime rt ttl).1 =
      hexEncodeToString [rt.randByte 0 % 256, rt.randByte 1 % 256, rt.randByte 2 % 256] := by
    simp only [generateVerificationCodeWithExpireTime, hbytes]
  refine ⟨hcode, ?_, generated_code_length rt ttl, ?_, ?_, ?_, ?_⟩
  · rw [hcode, hexDecode_hexEncodeToString]
    simp
  · rw [hcode]
    exact hexEncodeToString_chars _
  · have hnat : ((ttl : Int)) * 1000000000 < 2 ^ 63 := by exact_mod_cast hrange
    have hpos : (0 : Int) ≤ (ttl : Int) := Int.ofNat_nonneg ttl
    have hinner : wrapInt64 ((ttl : Int) % 2 ^ 64) = (ttl : Int) := by
      unfold wrapInt64
      omega
    have houter : wrapInt64 ((ttl : Int) * Second) = (ttl : Int) * Second := by
      unfold wrapInt64 Second
      omega
    simp only [generateVerificationCodeWithExpireTime, Time.Add]
    rw [hinner, houter]
  · intro σ s user w hunverified
    rw [← generated_expiry_180 rt]
    rcases hupdate : s.userRepo.UpdateVerificationCode w.store user
        (generateVerificationCodeWithExpireTime rt 180).1
        (generateVerificationCodeWithExpireTime rt 180).2 with ⟨e, left⟩
    cases e with
    | some e => exact ⟨[], by simp [updateExistingUser, hunverified, hupdate]⟩
    | none =>
      refine ⟨[.SendVerificationEmail user.Email
        (generateVerificationCodeWithExpireTime rt 180).1], ?_⟩
      cases hmail : s.mailService.SendVerificationEmail user.Email
          (generateVerificationCodeWithExpireTime rt 180).1 <;>
        simp [updateExistingUser, hunverified, hupdate, hmail]
  · intro σ s email password hashedPassword w hhash
    rw [← generated_expiry_180 rt]
    rcases hcreate : s.userRepo.CreateUnverifiedUser w.store
        { Email := email, Password := hashedPassword }
        (generateVerificationCodeWithExpireTime rt 180).1
        (generateVerificationCodeWithExpireTime rt 180).2 with ⟨e, left⟩
    cases e with
    | some e => exact ⟨[], by simp [createNewUser, hhash, hcreate]⟩
    | none =>
      refine ⟨[.SendVerificationEmail email (generateVerificationCodeWithExpireTime rt 180).1], ?_⟩
      cases hmail : s.mailService.SendVerificationEmail email
          (generateVerificationCodeWithExpireTime rt 180).1 <;>
        simp [createNewUser, hhash, hcreate, hmail]

/-- C16 (witness): with the bytes `de ad 42` drawn at clock reading 5 and the
argument 180, the code is `dead42` and the expiry is 5 plus 180 seconds. -/
theorem generateVerificationCodeWithExpireTime_result_witness :
    (generateVerificationCodeWithExpireTime (sampleRuntime 5) 180).1 =
      hexEncodeToString [(sampleRuntime 5).randByte 0 % 256, (sampleRuntime 5).randByte 1 % 256,
        (sampleRuntime 5).randByte 2 % 256] ∧
    (generateVerificationCodeWithExpireTime (sampleRuntime 5) 180).2 =
      (sampleRuntime 5).timeNow + ((180 : Nat) : Int) * Second :=
  ⟨(generateVerificationCodeWithExpireTime_result (sampleRuntime 5) 180 (by decide)).1,
   (generateVerificationCodeWithExpireTime_result (sampleRuntime 5) 180 (by decide)).2.2.2.2.1⟩

/-! ## The notification of a sign-up -/

/-- The runs of `SignUpWithEmail` in which a notification is sent, read off the
calls added to the log. -/
theorem SignUpWithEmail_sent_cases {σ : Type} (s : AuthServiceImpl σ) (rt : Runtime)
    (input : SignUpInput) (w : World σ) :
    ∃ added, (SignUpWithEmail s rt input w).2.calls = w.calls ++ added ∧
      ∀ recipient code, Call.SendVerificationEmail recipient code ∈ added →
        (∃ (err : GoError) (hashedPassword : String) (expireAt : Time),
          s.userRepo.GetUserByEmail w.store input.Email = .error err ∧
          rt.HashPassword input.Password = .ok hashedPassword ∧
          recipient = input.Email ∧
          (s.userRepo.CreateUnverifiedUser w.store
            { Email := input.Email, Password := hashedPassword } code expireAt).1 = none ∧
          added = [.GetUserByEmail input.Email, .HashPassword input.Password,
            .CreateUnverifiedUser { Email := input.Email, Password := hashedPassword }
              code expireAt,
            .SendVerificationEmail input.Email code]) ∨
        (∃ (user : User) (expireAt : Time),
          s.userRepo.GetUserByEmail w.store input.Email = .ok user ∧
          recipient = user.Email ∧
          (s.userRepo.UpdateVerificationCode w.store user code expireAt).1 = none ∧
          added = [.GetUserByEmail input.Email, .UpdateVerificationCode user code expireAt,
            .SendVerificationEmail user.Email code]) := by
  rcases hlookup : s.userRepo.GetUserByEmail w.store input.Email with err | user
  · rcases hhash : rt.HashPassword input.Password with e | hashedPassword
    · refine ⟨[.GetUserByEmail input.Email, .HashPassword input.Password],
        by simp [SignUpWithEmail, createNewUser, hlookup, hhash], ?_⟩
      intro recipient code hmem
      simp at hmem
    · rcases hcreate : s.userRepo.CreateUnverifiedUser w.store
          { Email := input.Email, Password := hashedPassword }
          (generateVerificationCodeWithExpireTime rt 180).1
          (generateVerificationCodeWithExpireTime rt 180).2 with ⟨e, left⟩
      cases e with
      | some e =>
        refine ⟨[.GetUserByEmail input.Email, .HashPassword input.Password,
          .CreateUnverifiedUser { Email := input.Email, Password := hashedPassword }
            (generateVerificationCodeWithExpireTime rt 180).1
            (generateVerificationCodeWithExpireTime rt 180).2],
          by simp [SignUpWithEmail, createNewUser, hlookup, hhash, hcreate], ?_⟩
        intro recipient code hmem
        simp at hmem
      | none =>
        refine ⟨[.GetUserByEmail input.Email, .HashPassword input.Password,
          .CreateUnverifiedUser { Email := input.Email, Password := hashedPassword }
            (generateVerificationCodeWithExpireTime rt 180).1
            (generateVerificationCodeWithExpireTime rt 180).2,
          .SendVerificationEmail input.Email (generateVerificationCodeWithExpireTime rt 180).1],
          ?_, ?_⟩
        · cases hmail : s.mailService.SendVerificationEmail input.Email
              (generateVerificationCodeWithExpireTime rt 180).1 <;>
            simp [SignUpWithEmail, createNewUser, hlookup, hhash, hcreate, hmail]
        · intro recipient code hmem
          simp at hmem
          obtain ⟨hrecipient, hsent⟩ := hmem
          subst hrecipient hsent
          exact Or.inl ⟨err, hashedPassword, (generateVerificationCodeWithExpireTime rt 180).2,
            rfl, rfl, rfl, by rw [hcreate], rfl⟩
  · by_cases hverified : user.IsEmailVerified = true
    · refine ⟨[.GetUserByEmail input.Email],
        by simp [SignUpWithEmail, updateExistingUser, hlookup, hverified], ?_⟩
      intro recipient code hmem
      simp at hmem
    · have hunverified : user.IsEmailVerified = false := by simpa using hverified
      rcases hupdate : s.userRepo.UpdateVerificationCode w.store user
          (generateVerificationCodeWithExpireTime rt 180).1
          (generateVerificationCodeWithExpireTime rt 180).2 with ⟨e, left⟩
      cases e with
      | some e =>
        refine ⟨[.GetUserByEmail input.Email,
          .UpdateVerificationCode user (generateVerificationCodeWithExpireTime rt 180).1
            (generateVerificationCodeWithExpireTime rt 180).2],
          by simp [SignUpWithEmail, updateExistingUser, hlookup, hunverified, hupdate], ?_⟩
        intro recipient code hmem
        simp at hmem
      | none =>
        refine ⟨[.GetUserByEmail input.Email,
          .UpdateVerificationCode user (generateVerificationCodeWithExpireTime rt 180).1
            (generateVerificationCodeWithExpireTime rt 180).2,
          .SendVerificationEmail user.Email (generateVerificationCodeWithExpireTime rt 180).1],
          ?_, ?_⟩
        · cases hmail : s.mailService.SendVerificationEmail user.Email
              (generateVerificationCodeWithExpireTime rt 180).1 <;>
            simp [SignUpWithEmail, updateExistingUser, hlookup, hunverified, hupdate, hmail]
        · intro recipient code hmem
          simp at hmem
          obtain ⟨hrecipient, hsent⟩ := hmem
          subst hrecipient hsent
          exact Or.inr ⟨user, (generateVerificationCodeWithExpireTime rt 180).2,
            rfl, rfl, by rw [hupdate], rfl⟩

/-- C18: whenever a `SendVerificationEmail` is among the calls a run of
`SignUpWithEmail` adds to the log, it is the last of them and comes right after
a store call that returned no error and was handed the very code that is sent:
in the new-user path a `CreateUnverifiedUser`, with the input e-mail as
recipient; in the existing-user path an `UpdateVerificationCode` for the
looked-up user, with that user's e-mail as recipient. -/
theorem SignUpWithEmail_notification {σ : Type} (s : AuthServiceImpl σ) (rt : Runtime)
    (input : SignUpInput) (w : World σ) (added : List Call) (recipient code : String)
    (hcalls : (SignUpWithEmail s rt input w).2.calls = w.calls ++ added)
    (hsent : Call.SendVerificationEmail recipient code ∈ added) :
    (∃ (err : GoError) (hashedPassword : String) (expireAt : Time),
      s.userRepo.GetUserByEmail w.store input.Email = .error err ∧
      rt.HashPassword input.Password = .ok hashedPassword ∧
      recipient = input.Email ∧
      (s.userRepo.CreateUnverifiedUser w.store
        { Email := input.Email, Password := hashedPassword } code expireAt).1 = none ∧
      added = [.GetUserByEmail input.Email, .HashPassword input.Password,
        .CreateUnverifiedUser { Email := input.Email, Password := hashedPassword }
          code expireAt,
        .SendVerificationEmail input.Email code]) ∨
    (∃ (user : User) (expireAt : Time),
      s.userRepo.GetUserByEmail w.store input.Email = .ok user ∧
      recipient = user.Email ∧
      (s.userRepo.UpdateVerificationCode w.store user code expireAt).1 = none ∧
      added = [.GetUserByEmail input.Email, .UpdateVerificationCode user code expireAt,
        .SendVerificationEmail user.Email code]) := by
  obtain ⟨added2, hcalls2, hcases⟩ := SignUpWithEmail_sent_cases s rt input w
  have hsame : added = added2 := List.append_cancel_left (hcalls.symm.trans hcalls2)
  subst hsame
  exact hcases recipient code hsent

/-- C18 (witness): signing up the unverified address `a@x.com` again sends the
code `dead42`, the one handed to `UpdateVerificationCode`, to `a@x.com`. -/
theorem SignUpWithEmail_notification_witness :
    (∃ (err : GoError) (hashedPassword : String) (expireAt : Time),
      sampleService.userRepo.GetUserByEmail (World.init [pendingUser]).store
        (SignUpInput.mk "a@x.com" "pw9").Email = .error err ∧
      (sampleRuntime 5).HashPassword (SignUpInput.mk "a@x.com" "pw9").Password
        = .ok hashedPassword ∧
      "a@x.com" = (SignUpInput.mk "a@x.com" "pw9").Email ∧
      (sampleService.userRepo.CreateUnverifiedUser (World.init [pendingUser]).store
        { Email := (SignUpInput.mk "a@x.com" "pw9").Email, Password := hashedPassword }
        "dead42" expireAt).1 = none ∧
      [Call.GetUserByEmail "a@x.com", .UpdateVerificationCode pendingUser "dead42" 180000000005,
        .SendVerificationEmail "a@x.com" "dead42"] =
       [.GetUserByEmail (SignUpInput.mk "a@x.com" "pw9").Email,
        .HashPassword (SignUpInput.mk "a@x.com" "pw9").Password,
        .CreateUnverifiedUser
          { Email := (SignUpInput.mk "a@x.com" "pw9").Email, Password := hashedPassword }
          "dead42" expireAt,
        .SendVerificationEmail (SignUpInput.mk "a@x.com" "pw9").Email "dead42"]) ∨
    (∃ (user : User) (expireAt : Time),
      sampleService.userRepo.GetUserByEmail (World.init [pendingUser]).store
        (SignUpInput.mk "a@x.com" "pw9").Email = .ok user ∧
      "a@x.com" = user.Email ∧
      (sampleService.userRepo.UpdateVerificationCode (World.init [pendingUser]).store user
        "dead42" expireAt).1 = none ∧
      [Call.GetUserByEmail "a@x.com", .UpdateVerificationCode pendingUser "dead42" 180000000005,
        .SendVerificationEmail "a@x.com" "dead42"] =
       [.GetUserByEmail (SignUpInput.mk "a@x.com" "pw9").Email,
        .UpdateVerificationCode user "dead42" expireAt,
        .SendVerificationEmail user.Email "dead42"]) :=
  SignUpWithEmail_notification sampleService (sampleRuntime 5) ⟨"a@x.com", "pw9"⟩
    (World.init [pendingUser])
    [.GetUserByEmail "a@x.com", .UpdateVerificationCode pendingUser "dead42" 180000000005,
      .SendVerificationEmail "a@x.com" "dead42"]
    "a@x.com" "dead42" (by decide) (by decide)

/-! ## A verified user that the lookup returns stays verified -/

/-- The store writes of `SignInWithEmail` for a found user: none, with the
store as it was, or one `UpdateRefreshToken` for that user as the last call. -/
theorem SignInWithEmail_store_writes {σ : Type} (s : AuthServiceImpl σ) (rt : Runtime)
    (input : SignInInput) (w : World σ) (user : User)
    (hfound : s.userRepo.GetUserByEmail w.store input.Email = .ok user) :
    ((SignInWithEmail s rt input w).2.store = w.store ∧
      ∃ added, (SignInWithEmail s rt input w).2.calls = w.calls ++ added ∧
        ∀ c ∈ added, c.isStoreWrite = false) ∨
    (∃ refreshToken,
      (SignInWithEmail s rt input w).2.store =
        (s.userRepo.UpdateRefreshToken w.store user refreshToken).2 ∧
      (SignInWithEmail s rt input w).2.calls = w.calls ++
        [.GetUserByEmail input.Email, .VerifyPassword input.Password user.Password,
         .GenerateToken (idTokenInput user), .GenerateToken (accessTokenInput user),
         .GenerateToken (refreshTokenInput user), .UpdateRefreshToken user refreshToken]) := by
  by_cases hgate : (!rt.VerifyPassword input.Password user.Password || !user.IsEmailVerified) = true
  · left
    refine ⟨by simp [SignInWithEmail, hfound, hgate],
      [.GetUserByEmail input.Email, .VerifyPassword input.Password user.Password],
      by simp [SignInWithEmail, hfound, hgate], by simp [Call.isStoreWrite]⟩
  rcases hid : s.tokenService.GenerateToken (idTokenInput user) with e | idToken
  · left
    refine ⟨by simp [SignInWithEmail, generateTokens, hfound, hgate, hid],
      [.GetUserByEmail input.Email, .VerifyPassword input.Password user.Password,
        .GenerateToken (idTokenInput user)],
      by simp [SignInWithEmail, generateTokens, hfound, hgate, hid], by simp [Call.isStoreWrite]⟩
  rcases haccess : s.tokenService.GenerateToken (accessTokenInput user) with e | accessToken
  · left
    refine ⟨by simp [SignInWithEmail, generateTokens, hfound, hgate, hid, haccess],
      [.GetUserByEmail input.Email, .VerifyPassword input.Password user.Password,
        .GenerateToken (idTokenInput user), .GenerateToken (accessTokenInput user)],
      by simp [SignInWithEmail, generateTokens, hfound, hgate, hid, haccess],
      by simp [Call.isStoreWrite]⟩
  rcases hrefresh : s.tokenService.GenerateToken (refreshTokenInput user) with e | refreshToken
  · left
    refine ⟨by simp [SignInWithEmail, generateTokens, hfound, hgate, hid, haccess, hrefresh],
      [.GetUserByEmail input.Email, .VerifyPassword input.Password user.Password,
        .GenerateToken (idTokenInput user), .GenerateToken (accessTokenInput user),
        .GenerateToken (refreshTokenInput user)],
      by simp [SignInWithEmail, generateTokens, hfound, hgate, hid, haccess, hrefresh],
      by simp [Call.isStoreWrite]⟩
  right
  refine ⟨refreshToken, ?_, ?_⟩
  · rcases hwrite : s.userRepo.UpdateRefreshToken w.store user refreshToken with ⟨e, left⟩
    cases e <;>
      simp [SignInWithEmail, generateTokens, hfound, hgate, hid, haccess, hrefresh, hwrite]
  · rcases hwrite : s.userRepo.UpdateRefreshToken w.store user refreshToken with ⟨e, left⟩
    cases e <;>
      simp [SignInWithEmail, generateTokens, hfound, hgate, hid, haccess, hrefresh, hwrite]

/-- The store writes of `VerifyEmailCode` for a found user: none, with the
store as it was, or one `VerifyUserEmail` for that user as the last call. -/
theorem VerifyEmailCode_store_writes {σ : Type} (s : AuthServiceImpl σ) (rt : Runtime)
    (input : VerifyEmailCodeInput) (w : World σ) (user : User)
    (hfound : s.userRepo.GetUserByEmail w.store input.Email = .ok user) :
    ((VerifyEmailCode s rt input w).2.store = w.store ∧
      (VerifyEmailCode s rt input w).2.calls = w.calls ++ [.GetUserByEmail input.Email]) ∨
    ((VerifyEmailCode s rt input w).2.store = (s.userRepo.VerifyUserEmail w.store user).2 ∧
      (VerifyEmailCode s rt input w).2.calls = w.calls ++
        [.GetUserByEmail input.Email, .VerifyUserEmail user]) := by
  rcases hcode : user.VerificationCode with _ | storedCode
  · left
    simp [VerifyEmailCode, hfound, hcode]
  by_cases hc : storedCode = input.Code
  swap
  · left
    simp [VerifyEmailCode, hfound, hcode, hc]
  rcases hexp : user.VerificationCodeExpireAt with _ | expireAt
  · left
    simp [VerifyEmailCode, hfound, hcode, hc, hexp]
  by_cases ht : rt.timeNow.After expireAt = true
  · left
    simp [VerifyEmailCode, hfound, hcode, hc, hexp, ht]
  right
  rcases hcommit : s.userRepo.VerifyUserEmail w.store user with ⟨e, left⟩
  cases e <;> simp [VerifyEmailCode, hfound, hcode, hc, hexp, ht, hcommit]

/-- On the in-memory store a refresh-token write keeps a verified user verified. -/
theorem memRepo_UpdateRefreshToken_verified (store : List User) (email : String)
    (user target : User) (refreshToken : String)
    (hfound : memRepo.GetUserByEmail store email = .ok user)
    (hverified : user.IsEmailVerified = true) :
    ∃ after, memRepo.GetUserByEmail (memRepo.UpdateRefreshToken store target refreshToken).2 email
        = .ok after ∧ after.IsEmailVerified = true := by
  refine ⟨_, memRepo_GetUserByEmail_map store email user
    (fun u => if u.Email == target.Email then { u with RefreshToken := refreshToken } else u)
    (by intro u; by_cases h : u.Email == target.Email <;> simp [h]) hfound, ?_⟩
  by_cases h : user.Email == target.Email <;>
    simpa [User.IsEmailVerified, h] using hverified

/-- On the in-memory store a verification commit keeps a verified user verified. -/
theorem memRepo_VerifyUserEmail_verified (store : List User) (email : String)
    (user target : User)
    (hfound : memRepo.GetUserByEmail store email = .ok user)
    (hverified : user.IsEmailVerified = true) :
    ∃ after, memRepo.GetUserByEmail (memRepo.VerifyUserEmail store target).2 email
        = .ok after ∧ after.IsEmailVerified = true := by
  refine ⟨_, memRepo_GetUserByEmail_map store email user
    (fun u =>
      if u.Email == target.Email then
        { u with EmailVerified := true, VerificationCode := none,
                 VerificationCodeExpireAt := none }
      else u)
    (by intro u; by_cases h : u.Email == target.Email <;> simp [h]) hfound, ?_⟩
  by_cases h : user.Email == target.Email
  · simp [User.IsEmailVerified, h]
  · simpa [User.IsEmailVerified, h] using hverified

/-- On the in-memory store, when the lookup of an e-mail returns a
verified user, a call of `SignUpWithEmail`, `SignInWithEmail` or
`VerifyEmailCode` with that e-mail adds to the log no store write other than an
`UpdateRefreshToken` or a `VerifyUserEmail` for that user, and in the store
after the call the lookup of that e-mail still returns a verified user;
whatever the password, the code, the mail service, the token service, the
clock and the random bytes. -/
theorem found_verified_user_stays_verified (mail : MailService) (tokens : TokenService) (rt : Runtime)
    (w : World (List User)) (email : String) (user : User)
    (hfound : memRepo.GetUserByEmail w.store email = .ok user)
    (hverified : user.IsEmailVerified = true) :
    (∀ password : String,
      (∃ added,
        (SignUpWithEmail ⟨memRepo, mail, tokens⟩ rt ⟨email, password⟩ w).2.calls
          = w.calls ++ added ∧
        ∀ c ∈ added, c.isStoreWrite = true →
          (∃ t, c = .UpdateRefreshToken user t) ∨ c = .VerifyUserEmail user) ∧
      (∃ after,
        memRepo.GetUserByEmail
          (SignUpWithEmail ⟨memRepo, mail, tokens⟩ rt ⟨email, password⟩ w).2.store email
          = .ok after ∧ after.IsEmailVerified = true)) ∧
    (∀ password : String,
      (∃ added,
        (SignInWithEmail ⟨memRepo, mail, tokens⟩ rt ⟨email, password⟩ w).2.calls
          = w.calls ++ added ∧
        ∀ c ∈ added, c.isStoreWrite = true →
          (∃ t, c = .UpdateRefreshToken user t) ∨ c = .VerifyUserEmail user) ∧
      (∃ after,
        memRepo.GetUserByEmail
          (SignInWithEmail ⟨memRepo, mail, tokens⟩ rt ⟨email, password⟩ w).2.store email
          = .ok after ∧ after.IsEmailVerified = true)) ∧
    (∀ code : String,
      (∃ added,
        (VerifyEmailCode ⟨memRepo, mail, tokens⟩ rt ⟨email, code⟩ w).2.calls
          = w.calls ++ added ∧
        ∀ c ∈ added, c.isStoreWrite = true →
          (∃ t, c = .UpdateRefreshToken user t) ∨ c = .VerifyUserEmail user) ∧
      (∃ after,
        memRepo.GetUserByEmail
          (VerifyEmailCode ⟨memRepo, mail, tokens⟩ rt ⟨email, code⟩ w).2.store email
          = .ok after ∧ after.IsEmailVerified = true)) := by
  refine ⟨?_, ?_, ?_⟩
  · intro password
    have hrun : SignUpWithEmail ⟨memRepo, mail, tokens⟩ rt ⟨email, password⟩ w =
        (("", some .ErrEmailInUse), w.log (.GetUserByEmail email)) := by
      simp [SignUpWithEmail, updateExistingUser, hfound, hverified]
    rw [hrun]
    exact ⟨⟨[.GetUserByEmail email], rfl, by simp [Call.isStoreWrite]⟩, user, hfound, hverified⟩
  · intro password
    rcases SignInWithEmail_store_writes ⟨memRepo, mail, tokens⟩ rt ⟨email, password⟩ w user hfound
      with ⟨hstore, added, hcalls, hnone⟩ | ⟨refreshToken, hstore, hcalls⟩
    · refine ⟨⟨added, hcalls, ?_⟩, user, by rw [hstore]; exact hfound, hverified⟩
      intro c hc hwrite
      rw [hnone c hc] at hwrite
      exact absurd hwrite (by decide)
    · refine ⟨⟨_, hcalls, ?_⟩, ?_⟩
      · intro c hc hwrite
        simp only [List.mem_cons, List.mem_singleton, List.not_mem_nil, or_false] at hc
        rcases hc with hc | hc | hc | hc | hc | hc
        all_goals first
          | exact Or.inl ⟨refreshToken, hc⟩
          | (subst hc; simp [Call.isStoreWrite] at hwrite)
      · rw [hstore]
        exact memRepo_UpdateRefreshToken_verified w.store email user user refreshToken hfound
          hverified
  · intro code
    rcases VerifyEmailCode_store_writes ⟨memRepo, mail, tokens⟩ rt ⟨email, code⟩ w user hfound
      with ⟨hstore, hcalls⟩ | ⟨hstore, hcalls⟩
    · refine ⟨⟨_, hcalls, by simp [Call.isStoreWrite]⟩, user, by rw [hstore]; exact hfound,
        hverified⟩
    · refine ⟨⟨_, hcalls, ?_⟩, ?_⟩
      · intro c hc hwrite
        simp only [List.mem_cons, List.mem_singleton, List.not_mem_nil, or_false] at hc
        rcases hc with hc | hc
        · subst hc
          simp [Call.isStoreWrite] at hwrite
        · exact Or.inr hc
      · rw [hstore]
        exact memRepo_VerifyUserEmail_verified w.store email user user hfound hverified

/-- An instance: the verified account `b@x.com` signs in with the correct
password, which writes its refresh token; the account is still verified. -/
theorem found_verified_user_stays_verified_instance :
    ∃ after,
      memRepo.GetUserByEmail
        (SignInWithEmail ⟨memRepo, mailOk, tokensByKind⟩ (sampleRuntime 5) ⟨"b@x.com", "pw2"⟩
          (World.init [pendingUser, verifiedUser])).2.store "b@x.com"
        = .ok after ∧ after.IsEmailVerified = true :=
  ((found_verified_user_stays_verified mailOk tokensByKind (sampleRuntime 5)
    (World.init [pendingUser, verifiedUser]) "b@x.com" verifiedUser (by decide) (by decide)).2.1
    "pw2").2

/-! ## A verified user whose lookup fails -/

/-- C17: whenever the lookup of `SignUpWithEmail` returns an error, whatever
user the store holds under that e-mail, and hashing succeeds, the calls added
to the log contain a `CreateUnverifiedUser` for a record with the input e-mail
and the verified flag off: a store write that is neither an
`UpdateRefreshToken` nor a `VerifyUserEmail`; and the store after the call is
the one this write, and nothing after it, left. -/
theorem SignUpWithEmail_lookup_error_writes {σ : Type} (s : AuthServiceImpl σ) (rt : Runtime)
    (input : SignUpInput) (w : World σ) (err : GoError) (hashedPassword : String)
    (hlookup : s.userRepo.GetUserByEmail w.store input.Email = .error err)
    (hhash : rt.HashPassword input.Password = .ok hashedPassword) :
    (∃ rest, (SignUpWithEmail s rt input w).2.calls = w.calls ++
      [.GetUserByEmail input.Email, .HashPassword input.Password,
       .CreateUnverifiedUser { Email := input.Email, Password := hashedPassword }
          (generateVerificationCodeWithExpireTime rt 180).1
          (generateVerificationCodeWithExpireTime rt 180).2] ++ rest) ∧
    (SignUpWithEmail s rt input w).2.store =
      (s.userRepo.CreateUnverifiedUser w.store { Email := input.Email, Password := hashedPassword }
        (generateVerificationCodeWithExpireTime rt 180).1
        (generateVerificationCodeWithExpireTime rt 180).2).2 ∧
    (Call.CreateUnverifiedUser { Email := input.Email, Password := hashedPassword }
        (generateVerificationCodeWithExpireTime rt 180).1
        (generateVerificationCodeWithExpireTime rt 180).2).isStoreWrite = true ∧
    (∀ (user : User) (refreshToken : String),
      Call.CreateUnverifiedUser { Email := input.Email, Password := hashedPassword }
        (generateVerificationCodeWithExpireTime rt 180).1
        (generateVerificationCodeWithExpireTime rt 180).2
        ≠ .UpdateRefreshToken user refreshToken) ∧
    (∀ user : User,
      Call.CreateUnverifiedUser { Email := input.Email, Password := hashedPassword }
        (generateVerificationCodeWithExpireTime rt 180).1
        (generateVerificationCodeWithExpireTime rt 180).2
        ≠ .VerifyUserEmail user) ∧
    ({ Email := input.Email, Password := hashedPassword } : User).Email = input.Email ∧
    ({ Email := input.Email, Password := hashedPassword } : User).IsEmailVerified = false := by
  rcases hcreate : s.userRepo.CreateUnverifiedUser w.store
      { Email := input.Email, Password := hashedPassword }
      (generateVerificationCodeWithExpireTime rt 180).1
      (generateVerificationCodeWithExpireTime rt 180).2 with ⟨e, left⟩
  refine ⟨?_, ?_, rfl, by simp, by simp, rfl, rfl⟩
  · cases e with
    | some e =>
      exact ⟨[], by simp [SignUpWithEmail, createNewUser, hlookup, hhash, hcreate]⟩
    | none =>
      refine ⟨[.SendVerificationEmail input.Email
        (generateVerificationCodeWithExpireTime rt 180).1], ?_⟩
      cases hmail : s.mailService.SendVerificationEmail input.Email
          (generateVerificationCodeWithExpireTime rt 180).1 <;>
        simp [SignUpWithEmail, createNewUser, hlookup, hhash, hcreate, hmail]
  · cases e with
    | some e => simp [SignUpWithEmail, createNewUser, hlookup, hhash, hcreate]
    | none =>
      cases hmail : s.mailService.SendVerificationEmail input.Email
          (generateVerificationCodeWithExpireTime rt 180).1 <;>
        simp [SignUpWithEmail, createNewUser, hlookup, hhash, hcreate, hmail]

/-- C17 (witness): the create-or-update store holds the verified account
`b@x.com`; its lookup fails with `connection refused` during a sign-up with
that e-mail; the sign-up hands the store a `CreateUnverifiedUser` for
`b@x.com` and reports success, and in the store it leaves the account
`b@x.com` is no longer verified. -/
theorem SignUpWithEmail_lookup_error_writes_witness :
    (memRepoUpsert.GetUserByEmail [verifiedUser] "b@x.com" = .ok verifiedUser ∧
      verifiedUser.IsEmailVerified = true) ∧
    (∃ rest,
      (SignUpWithEmail
          ⟨memRepoUpsertLookupFailing (.sentinel "connection refused"), mailOk, tokensByKind⟩
          (sampleRuntime 5) ⟨"b@x.com", "pw"⟩ (World.init [verifiedUser])).2.calls
        = (World.init [verifiedUser]).calls ++
          [.GetUserByEmail (SignUpInput.mk "b@x.com" "pw").Email,
           .HashPassword (SignUpInput.mk "b@x.com" "pw").Password,
           .CreateUnverifiedUser
              { Email := (SignUpInput.mk "b@x.com" "pw").Email, Password := "hash:pw" }
              (generateVerificationCodeWithExpireTime (sampleRuntime 5) 180).1
              (generateVerificationCodeWithExpireTime (sampleRuntime 5) 180).2] ++ rest) ∧
    (SignUpWithEmail
        ⟨memRepoUpsertLookupFailing (.sentinel "connection refused"), mailOk, tokensByKind⟩
        (sampleRuntime 5) ⟨"b@x.com", "pw"⟩ (World.init [verifiedUser])).1
      = ("Verification code was sent to user email", none) ∧
    (memRepoUpsert.GetUserByEmail
        (SignUpWithEmail
          ⟨memRepoUpsertLookupFailing (.sentinel "connection refused"), mailOk, tokensByKind⟩
          (sampleRuntime 5) ⟨"b@x.com", "pw"⟩ (World.init [verifiedUser])).2.store "b@x.com"
      = .ok { ID := 2, Email := "b@x.com", Password := "hash:pw", EmailVerified := false,
              VerificationCode := some "dead42",
              VerificationCodeExpireAt := some 180000000005 }) :=
  ⟨by decide,
   (SignUpWithEmail_lookup_error_writes
      ⟨memRepoUpsertLookupFailing (.sentinel "connection refused"), mailOk, tokensByKind⟩
      (sampleRuntime 5) ⟨"b@x.com", "pw"⟩ (World.init [verifiedUser])
      (.sentinel "connection refused") "hash:pw" (by decide) (by decide)).1,
   by decide, by decide⟩

end ArtSSO
